import Mathlib

/-!
# DHSVM sediment model set-up: `InitParameters.c`

A shallow embedding of `InitParameters` and `InitSurfaceSed` and the
properties of the set-up stage that follow from the code.

Conventions of the embedding

* A finite `float` value is the rational it denotes (`ℚ`); the float
  arithmetic of lines 154-155 rounds every result to IEEE-754 single precision
  (`roundFloat`, round to nearest, ties to even). `int` values are `Int`; the
  store of a float into an `int` truncates toward zero and is defined only when
  the result fits in 32 bits.
* Process termination through `ReportError` is the `fatal` outcome, which
  records the error string, the error code and the state at the moment the
  process stops.
* Functions, macros and constants that the file uses but does not define
  (`GetInitString`, `CopyInt`, `CopyFloat`, `SScanDate`, `After`, `INBASIN`,
  `CELLFACTOR`, `DistributeSedimentDiams`, whether `calloc` can satisfy a
  request, and the value an undefined float-to-int conversion leaves) are fields
  of `Collaborators`; a theorem holds for every choice of them unless it names
  the one it takes as a hypothesis.
* `printf` output is not modelled.
-/

namespace DHSVM

/-! ## Outcomes -/

/-- Result of running a piece of set-up code on a state of type `σ`: it either
runs to its end (`ok`) or stops the process in `ReportError (ErrorString, ErrorCode)`
(`fatal`), in which case `s` is the state at that moment. -/
inductive Outcome (σ : Type) where
  | ok (s : σ) : Outcome σ
  | fatal (ErrorString : String) (ErrorCode : Nat) (s : σ) : Outcome σ

/-- Sequencing: the next statement runs only when the previous one did not
terminate the process. -/
def Outcome.andThen {σ : Type} (o : Outcome σ) (f : σ → Outcome σ) : Outcome σ :=
  match o with
  | Outcome.ok s => f s
  | Outcome.fatal e c s => Outcome.fatal e c s

/-- The state an outcome ends in, whether the code ran to its end or stopped. -/
def Outcome.state {σ : Type} (o : Outcome σ) : σ :=
  match o with
  | Outcome.ok s => s
  | Outcome.fatal _ _ s => s

/-- Transport an outcome along a map of states. -/
def Outcome.lift {σ τ : Type} (g : σ → τ) (o : Outcome σ) : Outcome τ :=
  match o with
  | Outcome.ok s => Outcome.ok (g s)
  | Outcome.fatal e c s => Outcome.fatal e c (g s)

/-- Modelled from the spec: `ReportError` is defined outside this file; every
failure path "reports a descriptive message (identifying the offending key or
routine) and terminates the host process". -/
def ReportError {σ : Type} (ErrorString : String) (ErrorCode : Nat) (s : σ) : Outcome σ :=
  Outcome.fatal ErrorString ErrorCode s

/-! ## `strncmp` -/

/-- The C library function `strncmp` on the characters before the terminating
NUL: compares at most `n` characters, the end of a string counts as the
character 0, and the result is the difference of the first two characters that
differ (0 when there is none). -/
def strncmpAux : List Char → List Char → Nat → Int
  | _, _, 0 => 0
  | [], [], _ + 1 => 0
  | [], b :: _, _ + 1 => 0 - (b.toNat : Int)
  | a :: _, [], _ + 1 => (a.toNat : Int)
  | a :: as, b :: bs, n + 1 =>
    if a = b then strncmpAux as bs n else (a.toNat : Int) - (b.toNat : Int)

/-- The function `strncmp` on strings. -/
def strncmp (s t : String) (n : Nat) : Int :=
  strncmpAux s.data t.data n

/-! ## Data model -/

/-- Modelled from the spec: the `DATE` type is declared in `Calendar.h`, which
is not part of the file; the spec calls it a "calendar timestamp". -/
structure DATE where
  Year : Int
  Month : Int
  Day : Int
  Hour : Int
  Min : Int
  Sec : Int
deriving DecidableEq

/-- The `DATE` that `calloc` produces: every field zero. -/
def DATE.zero : DATE := ⟨0, 0, 0, 0, 0, 0⟩

/-- The input strings: (section, key, value) entries. -/
abbrev LISTPTR := List (String × String × String)

/-- The members of `OPTIONSTRUCT` that `InitParameters` writes. -/
structure OPTIONSTRUCT where
  MassWaste : Bool
  ErosionPeriod : Bool
  SurfaceErosion : Bool
  RoadRouting : Bool
  ChannelRouting : Bool
  InitSedFlag : Bool
deriving DecidableEq

/-- The members of `MAPSIZE` that `InitParameters` reads or writes. -/
structure MAPSIZE where
  NX : Int
  NY : Int
  DY : ℚ
  DMASS : ℚ
  NXfine : Int
  NYfine : Int
  NumCellsfine : Int
deriving DecidableEq

/-- The members of `ROADSTRUCT` that `InitParameters` reads or writes. A buffer
pointer is `none` when it is `NULL` and `some b` when it points to the
array `b`. -/
structure ROADSTRUCT where
  RoadArea : ℚ
  h : Option (List ℚ)
  startRunoff : Option (List ℚ)
  startRunon : Option (List ℚ)
  OldSedIn : Option (List ℚ)
  OldSedOut : Option (List ℚ)
deriving DecidableEq

/-- The basin mask member of `TOPOPIX`. -/
structure TOPOPIX where
  Mask : Nat
deriving DecidableEq

/-- The `roads` member of `CHANNEL`: `none` is the `NULL` pointer, `some l` a
loaded road network (the segment identifiers in `l`). -/
structure CHANNEL where
  roads : Option (List Nat)
deriving DecidableEq

/-- The members of `TIMESTRUCT` that `InitSurfaceSed` writes. -/
structure TIMESTRUCT where
  NSETotalSteps : Int
  StartSed : Option (List DATE)
  EndSed : Option (List DATE)
deriving DecidableEq

/-- Everything `InitParameters` reads or writes: its arguments and the global
calibration constants. Grids are indexed `[y][x]`. -/
structure State where
  Options : OPTIONSTRUCT
  Map : MAPSIZE
  Network : Nat → Nat → ROADSTRUCT
  ChannelData : CHANNEL
  TopoMap : Nat → Nat → TOPOPIX
  Time : TIMESTRUCT
  SedDiams : List ℚ
  MASSITER : ℚ
  CHANNELd50 : ℚ
  CHANNELd90 : ℚ
  DEBRISd50 : ℚ
  DEBRISd90 : ℚ

/-- What the file uses but does not define. -/
structure Collaborators where
  /-- Look-up of (section, key) with a default, from `getinit.h`. -/
  GetInitString : String → String → String → LISTPTR → String
  /-- Integer parse; `none` is the return value 0 (failure). -/
  CopyInt : String → Option Int
  /-- Float parse; `none` is the return value 0 (failure). -/
  CopyFloat : String → Option ℚ
  /-- Timestamp parse; `none` is the return value 0 (failure). -/
  SScanDate : String → Option DATE
  /-- The calendar comparison `After (Day1, Day2)`. -/
  After : DATE → DATE → Bool
  /-- The basin mask test. -/
  INBASIN : Nat → Bool
  /-- The fixed length of the per-cell road buffers. -/
  CELLFACTOR : Nat
  /-- Whether `calloc` satisfies a request for the given number of elements. -/
  calloc : Nat → Bool
  /-- The diameter partition computed from the four calibration percentiles
  (channel d50, d90, debris d50, d90). -/
  DistributeSedimentDiams : ℚ → ℚ → ℚ → ℚ → List ℚ
  /-- The value left in the `int` by `N * (DY / DMASS)` when C leaves the
  conversion undefined: the float result is infinite, not a number, or does not
  fit in an `int`. -/
  UndefinedInt : Int → ℚ → ℚ → Int

/-- A `calloc` of `n` floats: zero-filled on success, `NULL` otherwise. -/
def callocFloat (env : Collaborators) (n : Nat) : Option (List ℚ) :=
  if env.calloc n then some (List.replicate n 0) else none

/-- A `calloc` of `n` dates: zero-filled on success, `NULL` otherwise. -/
def callocDATE (env : Collaborators) (n : Nat) : Option (List DATE) :=
  if env.calloc n then some (List.replicate n DATE.zero) else none

/-! ## `InitSurfaceSed` -/

/-- The section read by `InitSurfaceSed`. -/
def SectionName : String := "SEDTIME"

/-- The two key stems of `InitSurfaceSed`, indexed by `erosion_start = 0` and
`erosion_end = 1`. -/
def KeyStr : Nat → String
  | 0 => "EROSION START"
  | _ => "EROSION END"

/-- The key written by `sprintf (KeyName[j], "%s %d", KeyStr[j], i+1)`. -/
def KeyName (j i : Nat) : String :=
  KeyStr j ++ " " ++ toString (i + 1)

/-- The string `VarStr[j]` read for period index `i` by the inner loop of lines
233-237. -/
def periodVarStr (env : Collaborators) (Input : LISTPTR) (j i : Nat) : String :=
  env.GetInitString SectionName (KeyName j i) "" Input

/-- The string read for the key TIME STEPS (lines 214-215). -/
def timeStepsVarStr (env : Collaborators) (Input : LISTPTR) : String :=
  env.GetInitString SectionName "TIME STEPS" "" Input

/-- Body of the period loop of `InitSurfaceSed` for period index `i`
(lines 230-249). -/
def sedPeriod (env : Collaborators) (Input : LISTPTR) (i : Nat) (Time : TIMESTRUCT) :
    Outcome TIMESTRUCT :=
  match env.SScanDate (periodVarStr env Input 0 i) with
  | none => ReportError (KeyName 0 i) 51 Time
  | some s =>
    let Time1 := { Time with StartSed := Time.StartSed.map (fun l => l.set i s) }
    match env.SScanDate (periodVarStr env Input 1 i) with
    | none => ReportError (KeyName 1 i) 51 Time1
    | some e =>
      let Time2 := { Time1 with EndSed := Time1.EndSed.map (fun l => l.set i e) }
      if env.After s e then ReportError SectionName 23 Time2 else Outcome.ok Time2

/-- The period loop `for (i = ...; i < NSETotalSteps; i++)`, with `k` iterations
left to run and `i` the current index. -/
def sedLoop (env : Collaborators) (Input : LISTPTR) : Nat → Nat → TIMESTRUCT → Outcome TIMESTRUCT
  | 0, _, Time => Outcome.ok Time
  | k + 1, i, Time => (sedPeriod env Input i Time).andThen (sedLoop env Input k (i + 1))

/-- The function `InitSurfaceSed` (lines 200-251). -/
def InitSurfaceSed (env : Collaborators) (Input : LISTPTR) (Time : TIMESTRUCT) :
    Outcome TIMESTRUCT :=
  match env.CopyInt (timeStepsVarStr env Input) with
  | none => ReportError "TIME STEPS" 51 Time
  | some n =>
    let Time1 := { Time with NSETotalSteps := n }
    if n < 0 then ReportError SectionName 51 Time1
    else
      let Time2 := { Time1 with StartSed := callocDATE env n.toNat }
      if Time2.StartSed.isNone then ReportError "InitSurfaceSed" 1 Time2
      else
        let Time3 := { Time2 with EndSed := callocDATE env n.toNat }
        if Time3.EndSed.isNone then ReportError "InitSurfaceSed" 1 Time3
        else sedLoop env Input n.toNat 0 Time3

/-! ## `InitParameters` -/

/-- The (section, key) table `StrEnv` of `InitParameters`, in its positional
order. -/
def StrEnv : List (String × String) :=
  [("SEDOPTIONS", "MASS WASTING"),
   ("SEDOPTIONS", "SURFACE EROSION"),
   ("SEDOPTIONS", "ROAD EROSION"),
   ("SEDOPTIONS", "CHANNEL ROUTING"),
   ("PARAMETERS", "MASS WASTING SPACING"),
   ("PARAMETERS", "MAXIMUM ITERATIONS"),
   ("PARAMETERS", "CHANNEL PARENT D50"),
   ("PARAMETERS", "CHANNEL PARENT D90"),
   ("PARAMETERS", "DEBRIS FLOW D50"),
   ("PARAMETERS", "DEBRIS FLOW D90")]

/-- Position of MASS WASTING in `StrEnv`. -/
def mass_wasting : Nat := 0
/-- Position of SURFACE EROSION in `StrEnv`. -/
def surface_erosion : Nat := 1
/-- Position of ROAD EROSION in `StrEnv`. -/
def road_erosion : Nat := 2
/-- Position of CHANNEL ROUTING in `StrEnv`. -/
def channel_routing : Nat := 3
/-- Position of MASS WASTING SPACING in `StrEnv`. -/
def mass_spacing : Nat := 4
/-- Position of MAXIMUM ITERATIONS in `StrEnv`. -/
def max_iterations : Nat := 5
/-- Position of CHANNEL PARENT D50 in `StrEnv`. -/
def channeld50 : Nat := 6
/-- Position of CHANNEL PARENT D90 in `StrEnv`. -/
def channeld90 : Nat := 7
/-- Position of DEBRIS FLOW D50 in `StrEnv`. -/
def debrisd50 : Nat := 8
/-- Position of DEBRIS FLOW D90 in `StrEnv`. -/
def debrisd90 : Nat := 9

/-- The member `StrEnv[i].SectionName`. -/
def StrEnvSectionName (i : Nat) : String := (StrEnv.getD i ("", "")).1

/-- The member `StrEnv[i].KeyName`. -/
def StrEnvKeyName (i : Nat) : String := (StrEnv.getD i ("", "")).2

/-- The member `StrEnv[i].VarStr` after the read loop of lines 70-73 (every
default is the empty string). -/
def VarStr (env : Collaborators) (Input : LISTPTR) (i : Nat) : String :=
  env.GetInitString (StrEnvSectionName i) (StrEnvKeyName i) "" Input

/-- Lines 78-85: the mass wasting switch. -/
def resolveMassWaste (env : Collaborators) (Input : LISTPTR) (st : State) : Outcome State :=
  if strncmp (VarStr env Input mass_wasting) "TRUE" 4 = 0 then
    Outcome.ok { st with Options := { st.Options with MassWaste := true } }
  else if strncmp (VarStr env Input mass_wasting) "FALSE" 5 = 0 then
    Outcome.ok { st with Options := { st.Options with MassWaste := false } }
  else ReportError (StrEnvKeyName mass_wasting) 51 st

/-- Lines 88-98: the surface erosion switch and its twin `ErosionPeriod`. -/
def resolveSurfaceErosion (env : Collaborators) (Input : LISTPTR) (st : State) : Outcome State :=
  if strncmp (VarStr env Input surface_erosion) "TRUE" 4 = 0 then
    Outcome.ok { st with Options :=
      { st.Options with ErosionPeriod := true, SurfaceErosion := true } }
  else if strncmp (VarStr env Input surface_erosion) "FALSE" 5 = 0 then
    Outcome.ok { st with Options :=
      { st.Options with ErosionPeriod := false, SurfaceErosion := false } }
  else ReportError (StrEnvKeyName surface_erosion) 51 st

/-- Lines 101-111: the road erosion switch, forced off when no road network is
loaded. -/
def resolveRoadErosion (env : Collaborators) (Input : LISTPTR) (st : State) : Outcome State :=
  if strncmp (VarStr env Input road_erosion) "TRUE" 4 = 0 then
    let st1 := { st with Options := { st.Options with RoadRouting := true } }
    if st1.ChannelData.roads.isNone then
      Outcome.ok { st1 with Options := { st1.Options with RoadRouting := false } }
    else Outcome.ok st1
  else if strncmp (VarStr env Input road_erosion) "FALSE" 5 = 0 then
    Outcome.ok { st with Options := { st.Options with RoadRouting := false } }
  else ReportError (StrEnvKeyName road_erosion) 51 st

/-- The grid `Network` with cell `[y][x]` replaced by `c`. -/
def setCell (Network : Nat → Nat → ROADSTRUCT) (y x : Nat) (c : ROADSTRUCT) :
    Nat → Nat → ROADSTRUCT :=
  fun y1 x1 => if y1 = y ∧ x1 = x then c else Network y1 x1

/-- One buffer allocation of lines 119-133: the pointer member written by
`setBuf` receives the result of `calloc (CELLFACTOR, sizeof (float))`, and a
`NULL` result is fatal with code 1. -/
def allocBuffer (env : Collaborators) (setBuf : ROADSTRUCT → Option (List ℚ) → ROADSTRUCT)
    (y x : Nat) (st : State) : Outcome State :=
  let b := callocFloat env env.CELLFACTOR
  let st1 := { st with Network := setCell st.Network y x (setBuf (st.Network y x) b) }
  if b.isNone then ReportError "InitParameters" 1 st1 else Outcome.ok st1

/-- Lines 117-135: the body of the allocation loop for cell `[y][x]`. -/
def roadCell (env : Collaborators) (y x : Nat) (st : State) : Outcome State :=
  if env.INBASIN (st.TopoMap y x).Mask then
    if (st.Network y x).RoadArea > 0 then
      ((((allocBuffer env (fun c b => { c with h := b }) y x st).andThen
        (allocBuffer env (fun c b => { c with startRunoff := b }) y x)).andThen
        (allocBuffer env (fun c b => { c with startRunon := b }) y x)).andThen
        (allocBuffer env (fun c b => { c with OldSedIn := b }) y x)).andThen
        (allocBuffer env (fun c b => { c with OldSedOut := b }) y x)
    else Outcome.ok st
  else Outcome.ok st

/-- The loop `for (x = ...; x < Map->NX; x++)` of row `y`, with `k` iterations
left to run and `x` the current column. -/
def roadRowLoop (env : Collaborators) (y : Nat) : Nat → Nat → State → Outcome State
  | 0, _, st => Outcome.ok st
  | k + 1, x, st => (roadCell env y x st).andThen (roadRowLoop env y k (x + 1))

/-- The loop `for (y = ...; y < Map->NY; y++)`, with `k` iterations left to run
and `y` the current row. -/
def roadGridLoop (env : Collaborators) : Nat → Nat → State → Outcome State
  | 0, _, st => Outcome.ok st
  | k + 1, y, st =>
    (roadRowLoop env y st.Map.NX.toNat 0 st).andThen (roadGridLoop env k (y + 1))

/-- Lines 113-138: the road cell allocation, run only when `RoadRouting` is
set. -/
def RoadCellAllocator (env : Collaborators) (st : State) : Outcome State :=
  if st.Options.RoadRouting then roadGridLoop env st.Map.NY.toNat 0 st
  else Outcome.ok st

/-- Lines 141-149: the channel routing switch. -/
def resolveChannelRouting (env : Collaborators) (Input : LISTPTR) (st : State) : Outcome State :=
  if strncmp (VarStr env Input channel_routing) "TRUE" 4 = 0 then
    Outcome.ok { st with Options := { st.Options with ChannelRouting := true } }
  else if strncmp (VarStr env Input channel_routing) "FALSE" 5 = 0 then
    Outcome.ok { st with Options := { st.Options with ChannelRouting := false } }
  else ReportError (StrEnvKeyName channel_routing) 51 st

/-- Rounding of a rational to the nearest integer, ties to the even one. -/
def roundNearestEven (r : ℚ) : Int :=
  if r - ⌊r⌋ < 1 / 2 then ⌊r⌋
  else if 1 / 2 < r - ⌊r⌋ then ⌊r⌋ + 1
  else if ⌊r⌋ % 2 = 0 then ⌊r⌋ else ⌊r⌋ + 1

/-- The binary exponent of the single precision binade of `q > 0`: the `e` with
`2 ^ e ≤ q < 2 ^ (e + 1)`, and -126 (the subnormal range) below `2 ^ (-126)`. -/
def floatExponent (q : ℚ) : Int := max (Int.log 2 q) (-126)

/-- The spacing of the single precision numbers around `q > 0` (24 significant
bits). -/
def ulp (q : ℚ) : ℚ := (2 : ℚ) ^ (floatExponent q - 23)

/-- The result of a single precision operation whose exact value is `q`: the
nearest single precision number, ties to even. A result of magnitude
`2 ^ 128` or more stands for an overflow to infinity. -/
def roundFloat (q : ℚ) : ℚ :=
  if q < 0 then - ((roundNearestEven (-q / ulp (-q)) : ℚ) * ulp (-q))
  else (roundNearestEven (q / ulp q) : ℚ) * ulp q

/-- The float `DY / DMASS` of lines 154-155. -/
def floatQuotient (DY DMASS : ℚ) : ℚ := roundFloat (DY / DMASS)

/-- The float `N * (DY / DMASS)` of lines 154-155: `N` is converted to float,
the product is rounded. -/
def floatProduct (N : Int) (DY DMASS : ℚ) : ℚ :=
  roundFloat (roundFloat (N : ℚ) * floatQuotient DY DMASS)

/-- The store of `N * (DY / DMASS)` into an `int` is defined: the divisor is not
zero, the quotient did not overflow, and the truncated product fits in 32
bits. -/
def FineDimDefined (N : Int) (DY DMASS : ℚ) : Prop :=
  DMASS ≠ 0 ∧ |floatQuotient DY DMASS| < 2 ^ 128 ∧
  -2147483649 < floatProduct N DY DMASS ∧ floatProduct N DY DMASS < 2147483648

instance (N : Int) (DY DMASS : ℚ) : Decidable (FineDimDefined N DY DMASS) := by
  unfold FineDimDefined; infer_instance

/-- The right-hand sides of lines 154-155: the float `N * (DY / DMASS)` stored
in an `int`. Where the store is defined the fractional part is discarded
(truncation toward zero) and the result is within the 32 bits of an `int`;
elsewhere the value is the one the platform leaves. -/
def fineDim (env : Collaborators) (N : Int) (DY DMASS : ℚ) : Int :=
  if FineDimDefined N DY DMASS then
    (if 0 ≤ floatProduct N DY DMASS then ⌊floatProduct N DY DMASS⌋
     else ⌈floatProduct N DY DMASS⌉)
  else env.UndefinedInt N DY DMASS

/-- Lines 151-156: the mass wasting spacing and the fine grid dimensions. -/
def deriveFineGrid (env : Collaborators) (Input : LISTPTR) (st : State) : Outcome State :=
  match env.CopyFloat (VarStr env Input mass_spacing) with
  | none => ReportError (StrEnvKeyName mass_spacing) 51 st
  | some d =>
    let Map1 := { st.Map with DMASS := d }
    let Map2 := { Map1 with NYfine := fineDim env Map1.NY Map1.DY Map1.DMASS }
    let Map3 := { Map2 with NXfine := fineDim env Map2.NX Map2.DY Map2.DMASS }
    Outcome.ok { st with Map := { Map3 with NumCellsfine := 0 } }

/-- Lines 158-171: the five global calibration constants. -/
def readConstants (env : Collaborators) (Input : LISTPTR) (st : State) : Outcome State :=
  match env.CopyFloat (VarStr env Input max_iterations) with
  | none => ReportError (StrEnvKeyName max_iterations) 51 st
  | some v1 =>
    let st1 := { st with MASSITER := v1 }
    match env.CopyFloat (VarStr env Input channeld50) with
    | none => ReportError (StrEnvKeyName channeld50) 51 st1
    | some v2 =>
      let st2 := { st1 with CHANNELd50 := v2 }
      match env.CopyFloat (VarStr env Input channeld90) with
      | none => ReportError (StrEnvKeyName channeld90) 51 st2
      | some v3 =>
        let st3 := { st2 with CHANNELd90 := v3 }
        match env.CopyFloat (VarStr env Input debrisd50) with
        | none => ReportError (StrEnvKeyName debrisd50) 51 st3
        | some v4 =>
          let st4 := { st3 with DEBRISd50 := v4 }
          match env.CopyFloat (VarStr env Input debrisd90) with
          | none => ReportError (StrEnvKeyName debrisd90) 51 st4
          | some v5 => Outcome.ok { st4 with DEBRISd90 := v5 }

/-- Line 173: the diameter of each sediment portion. -/
def distributeDiams (env : Collaborators) (st : State) : Outcome State :=
  Outcome.ok { st with SedDiams :=
    env.DistributeSedimentDiams st.CHANNELd50 st.CHANNELd90 st.DEBRISd50 st.DEBRISd90 }

/-- Lines 175-180: the erosion periods are read only when `SurfaceErosion` is
set, then `InitSedFlag` takes the value of `SurfaceErosion`. -/
def surfaceSedStage (env : Collaborators) (Input : LISTPTR) (st : State) : Outcome State :=
  ((if st.Options.SurfaceErosion = true then
      Outcome.lift (fun T => { st with Time := T }) (InitSurfaceSed env Input st.Time)
    else Outcome.ok st).andThen
    (fun s => Outcome.ok { s with Options := { s.Options with InitSedFlag := s.Options.SurfaceErosion } }))

/-- The function `InitParameters` (lines 49-181). -/
def InitParameters (env : Collaborators) (Input : LISTPTR) (st : State) : Outcome State :=
  ((((((((resolveMassWaste env Input st).andThen
    (resolveSurfaceErosion env Input)).andThen
    (resolveRoadErosion env Input)).andThen
    (RoadCellAllocator env)).andThen
    (resolveChannelRouting env Input)).andThen
    (deriveFineGrid env Input)).andThen
    (readConstants env Input)).andThen
    (distributeDiams env)).andThen
    (surfaceSedStage env Input)

/-! ## Reading the switches -/

/-- The string `v` begins with the characters of `p`. -/
def BeginsWith (v p : String) : Prop := v.data.take p.data.length = p.data

instance (v p : String) : Decidable (BeginsWith v p) := by
  unfold BeginsWith; infer_instance


/-! ## Concrete collaborators for the worked scenarios -/

/-- Modelled from the spec: `GetInitString` is defined outside this file; the
configuration store is an "ordered list of (section, key) → string-value
lookups with defaults". The first matching entry is returned, the default when
there is none. -/
def GetInitString (Section Key Default : String) : LISTPTR → String
  | [] => Default
  | (s, k, v) :: rest =>
    if s = Section ∧ k = Key then v else GetInitString Section Key Default rest

/-- Value of a string of decimal digits, `none` when a character is not a
digit. -/
def digitsValue : List Char → Nat → Option Nat
  | [], acc => some acc
  | c :: cs, acc =>
    if 48 ≤ c.toNat ∧ c.toNat ≤ 57 then digitsValue cs (10 * acc + (c.toNat - 48)) else none

/-- A decimal integer parser standing in for `CopyInt` in the worked scenarios:
an optional minus sign followed by one or more digits. -/
def sampleCopyInt (s : String) : Option Int :=
  match s.data with
  | [] => none
  | '-' :: [] => none
  | '-' :: cs => (digitsValue cs 0).map (fun n => - (n : Int))
  | cs => (digitsValue cs 0).map (fun n => (n : Int))

/-- A parser standing in for `CopyFloat` in the worked scenarios: it accepts the
integer literals of `sampleCopyInt`. -/
def sampleCopyFloat (s : String) : Option ℚ :=
  (sampleCopyInt s).map (fun n => (n : ℚ))

/-- A timestamp parser standing in for `SScanDate` in the worked scenarios: the
format MM/DD/YYYY, at hour 0. -/
def sampleSScanDate (s : String) : Option DATE :=
  match s.data with
  | [m1, m2, '/', d1, d2, '/', y1, y2, y3, y4] =>
    match digitsValue [m1, m2] 0, digitsValue [d1, d2] 0, digitsValue [y1, y2, y3, y4] 0 with
    | some m, some d, some y => some ⟨y, m, d, 0, 0, 0⟩
    | _, _, _ => none
  | _ => none

/-- Modelled from the spec: the order of the "calendar timestamps" (the
functions of `Calendar.h` are defined outside this file). `Before Day1 Day2`
holds when `Day1` is strictly earlier than `Day2`, the fields compared in turn,
year first. -/
def Before (Day1 Day2 : DATE) : Bool :=
  decide (Day1.Year < Day2.Year) ||
  (decide (Day1.Year = Day2.Year) && (decide (Day1.Month < Day2.Month) ||
  (decide (Day1.Month = Day2.Month) && (decide (Day1.Day < Day2.Day) ||
  (decide (Day1.Day = Day2.Day) && (decide (Day1.Hour < Day2.Hour) ||
  (decide (Day1.Hour = Day2.Hour) && (decide (Day1.Min < Day2.Min) ||
  (decide (Day1.Min = Day2.Min) && decide (Day1.Sec < Day2.Sec))))))))))

/-- Modelled from the spec: `After` is defined outside this file. The spec says
of the check of line 246 that it "asserts start strictly before end; violation
is fatal", and that "a period with start_i ≥ end_i raises
TemporalOrderingViolation": `After (start, end)` holds exactly when the start is
not strictly before the end. -/
def After (Day1 Day2 : DATE) : Bool :=
  !Before Day1 Day2

/-- The collaborators of the worked scenarios: a mask value other than 0 is
inside the basin, road buffers have length 3, every allocation succeeds, and an
undefined float-to-int conversion leaves the most negative `int`. -/
def sampleEnv : Collaborators where
  GetInitString := GetInitString
  CopyInt := sampleCopyInt
  CopyFloat := sampleCopyFloat
  SScanDate := sampleSScanDate
  After := After
  INBASIN := fun m => m != 0
  CELLFACTOR := 3
  calloc := fun _ => true
  DistributeSedimentDiams := fun a b c d => [a, b, c, d]
  UndefinedInt := fun _ _ _ => -2147483648

/-- A `TIMESTRUCT` before set-up: no schedule. -/
def emptyTime : TIMESTRUCT := ⟨0, none, none⟩

/-- Scenario 2: two erosion periods, Jan 1 - Jan 10 2000 and Feb 1 - Feb 15
2000, with the four switches and the six numeric parameters. -/
def scenario2Input : LISTPTR :=
  [("SEDOPTIONS", "MASS WASTING", "FALSE"),
   ("SEDOPTIONS", "SURFACE EROSION", "TRUE"),
   ("SEDOPTIONS", "ROAD EROSION", "FALSE"),
   ("SEDOPTIONS", "CHANNEL ROUTING", "FALSE"),
   ("PARAMETERS", "MASS WASTING SPACING", "10"),
   ("PARAMETERS", "MAXIMUM ITERATIONS", "100"),
   ("PARAMETERS", "CHANNEL PARENT D50", "2"),
   ("PARAMETERS", "CHANNEL PARENT D90", "8"),
   ("PARAMETERS", "DEBRIS FLOW D50", "4"),
   ("PARAMETERS", "DEBRIS FLOW D90", "16"),
   ("SEDTIME", "TIME STEPS", "2"),
   ("SEDTIME", "EROSION START 1", "01/01/2000"),
   ("SEDTIME", "EROSION END 1", "01/10/2000"),
   ("SEDTIME", "EROSION START 2", "02/01/2000"),
   ("SEDTIME", "EROSION END 2", "02/15/2000")]

/-- One erosion period whose start and end are the same timestamp. -/
def equalPeriodInput : LISTPTR :=
  [("SEDTIME", "TIME STEPS", "1"),
   ("SEDTIME", "EROSION START 1", "03/10/2001"),
   ("SEDTIME", "EROSION END 1", "03/10/2001")]

/-- Scenario 3: one erosion period that starts on Mar 10 2001 and ends on Mar 5
2001. -/
def scenario3Input : LISTPTR :=
  [("SEDTIME", "TIME STEPS", "1"),
   ("SEDTIME", "EROSION START 1", "03/10/2001"),
   ("SEDTIME", "EROSION END 1", "03/05/2001")]

/-- A negative number of erosion periods. -/
def negativeStepsInput : LISTPTR :=
  [("SEDTIME", "TIME STEPS", "-1")]

/-- The schedule of scenario 2. -/
def scenario2Schedule : TIMESTRUCT :=
  ⟨2, some [⟨2000, 1, 1, 0, 0, 0⟩, ⟨2000, 2, 1, 0, 0, 0⟩],
      some [⟨2000, 1, 10, 0, 0, 0⟩, ⟨2000, 2, 15, 0, 0, 0⟩]⟩

/-! ## Vocabulary of the statements -/

/-- A switch value that resolves: it begins with "TRUE" or with "FALSE". -/
def ValidSwitch (v : String) : Prop := BeginsWith v "TRUE" ∨ BeginsWith v "FALSE"

instance (v : String) : Decidable (ValidSwitch v) := by
  unfold ValidSwitch; infer_instance

/-- The cell holds all five road buffers, each of length `n`. -/
def HasBuffers (c : ROADSTRUCT) (n : Nat) : Prop :=
  (∃ b, c.h = some b ∧ b.length = n) ∧
  (∃ b, c.startRunoff = some b ∧ b.length = n) ∧
  (∃ b, c.startRunon = some b ∧ b.length = n) ∧
  (∃ b, c.OldSedIn = some b ∧ b.length = n) ∧
  (∃ b, c.OldSedOut = some b ∧ b.length = n)

/-- The cell holds none of the five road buffers. -/
def NoBuffers (c : ROADSTRUCT) : Prop :=
  c.h = none ∧ c.startRunoff = none ∧ c.startRunon = none ∧
  c.OldSedIn = none ∧ c.OldSedOut = none

/-- The test of lines 117-118 on cell `[y][x]`: inside the basin mask and of
positive road area. -/
def Qualifies (env : Collaborators) (st : State) (y x : Nat) : Prop :=
  env.INBASIN (st.TopoMap y x).Mask = true ∧ (st.Network y x).RoadArea > 0

instance (env : Collaborators) (st : State) (y x : Nat) : Decidable (Qualifies env st y x) := by
  unfold Qualifies; infer_instance

/-- The cell `c` after the five successful allocations of lines 119-133. -/
def allocated (env : Collaborators) (c : ROADSTRUCT) : ROADSTRUCT :=
  { c with
    h := some (List.replicate env.CELLFACTOR 0)
    startRunoff := some (List.replicate env.CELLFACTOR 0)
    startRunon := some (List.replicate env.CELLFACTOR 0)
    OldSedIn := some (List.replicate env.CELLFACTOR 0)
    OldSedOut := some (List.replicate env.CELLFACTOR 0) }

/-- The part of the state that the road cell allocation does not write. -/
def roadFrame (s : State) : OPTIONSTRUCT × MAPSIZE × CHANNEL × TIMESTRUCT × (Nat → Nat → TOPOPIX) :=
  (s.Options, s.Map, s.ChannelData, s.Time, s.TopoMap)

/-- A set of options with every switch off. -/
def optionsOff : OPTIONSTRUCT := ⟨false, false, false, false, false, false⟩

/-- Scenario 4: a 3×3 grid on entry to the allocation loop, `RoadRouting` set.
Cell `[1][1]` is inside the basin with road area 5; cell `[0][0]` is outside
the basin (mask 0) with road area 2; every other cell is inside the basin with
road area 0. No cell holds a buffer. -/
def scenario4State : State where
  Options := { optionsOff with RoadRouting := true }
  Map := ⟨3, 3, 30, 0, 0, 0, 0⟩
  Network := fun y x =>
    ⟨if y = 1 ∧ x = 1 then 5 else if y = 0 ∧ x = 0 then 2 else 0, none, none, none, none, none⟩
  ChannelData := ⟨some [1]⟩
  TopoMap := fun y x => ⟨if y = 0 ∧ x = 0 then 0 else 1⟩
  Time := emptyTime
  SedDiams := []
  MASSITER := 0
  CHANNELd50 := 0
  CHANNELd90 := 0
  DEBRISd50 := 0
  DEBRISd90 := 0

/-- A MASS WASTING value in lower case. -/
def lowerCaseInput : LISTPTR :=
  [("SEDOPTIONS", "MASS WASTING", "true")]

/-- Three switches that resolve and no CHANNEL ROUTING entry, so that its value
is the empty default. -/
def threeSwitchInput : LISTPTR :=
  [("SEDOPTIONS", "MASS WASTING", "TRUE"),
   ("SEDOPTIONS", "SURFACE EROSION", "FALSE"),
   ("SEDOPTIONS", "ROAD EROSION", "TRUE")]

/-- The state of scenario 4 with no road network loaded (`RoadRouting` is set
on entry). -/
def noRoadsState : State :=
  { scenario4State with ChannelData := ⟨none⟩ }

/-- The six numeric parameters of `InitParameters` parse as floats. -/
def NumericParametersParse (env : Collaborators) (Input : LISTPTR) : Prop :=
  (env.CopyFloat (VarStr env Input mass_spacing)).isSome = true ∧
  (env.CopyFloat (VarStr env Input max_iterations)).isSome = true ∧
  (env.CopyFloat (VarStr env Input channeld50)).isSome = true ∧
  (env.CopyFloat (VarStr env Input channeld90)).isSome = true ∧
  (env.CopyFloat (VarStr env Input debrisd50)).isSome = true ∧
  (env.CopyFloat (VarStr env Input debrisd90)).isSome = true

instance (env : Collaborators) (Input : LISTPTR) : Decidable (NumericParametersParse env Input) := by
  unfold NumericParametersParse; infer_instance

/-- Scenario 1: the four switches are "FALSE"; the mass wasting spacing is
`spacing`. -/
def scenario1Input (spacing : String) : LISTPTR :=
  [("SEDOPTIONS", "MASS WASTING", "FALSE"),
   ("SEDOPTIONS", "SURFACE EROSION", "FALSE"),
   ("SEDOPTIONS", "ROAD EROSION", "FALSE"),
   ("SEDOPTIONS", "CHANNEL ROUTING", "FALSE"),
   ("PARAMETERS", "MASS WASTING SPACING", spacing),
   ("PARAMETERS", "MAXIMUM ITERATIONS", "100"),
   ("PARAMETERS", "CHANNEL PARENT D50", "2"),
   ("PARAMETERS", "CHANNEL PARENT D90", "8"),
   ("PARAMETERS", "DEBRIS FLOW D50", "4"),
   ("PARAMETERS", "DEBRIS FLOW D90", "16")]

/-- The parsed start of period `i + 1` in scenario 2. -/
def scenario2Starts (i : Nat) : DATE :=
  if i = 0 then ⟨2000, 1, 1, 0, 0, 0⟩ else ⟨2000, 2, 1, 0, 0, 0⟩

/-- The parsed end of period `i + 1` in scenario 2. -/
def scenario2Ends (i : Nat) : DATE :=
  if i = 0 then ⟨2000, 1, 10, 0, 0, 0⟩ else ⟨2000, 2, 15, 0, 0, 0⟩

/-- A 7×7 grid of edge 31: the state of scenario 4 with another coarse grid. -/
def roundingState : State :=
  { scenario4State with Map := ⟨7, 7, 31, 0, 0, 0, 0⟩ }

/-! ## Lemmas -/

theorem char_toNat_ne {a b : Char} (h : a ≠ b) : (a.toNat : Int) - (b.toNat : Int) ≠ 0 := by
  intro h0
  apply h
  have h1 : a.toNat = b.toNat := by omega
  have := congrArg Char.ofNat h1
  simpa using this

theorem strncmpAux_eq_zero_iff :
    ∀ (n : Nat) (s t : List Char), (∀ c ∈ t, c.toNat ≠ 0) → n ≤ t.length →
      (strncmpAux s t n = 0 ↔ s.take n = t.take n) := by
  intro n
  induction n with
  | zero => intro s t _ _; simp [strncmpAux]
  | succ n ih =>
    intro s t ht hn
    cases t with
    | nil => simp at hn
    | cons b bs =>
      have hb : b.toNat ≠ 0 := ht b (by simp)
      cases s with
      | nil =>
        simp only [strncmpAux, List.take_nil, List.take_succ_cons]
        constructor
        · intro h; omega
        · intro h; cases h
      | cons a as =>
        simp only [strncmpAux, List.take_succ_cons]
        by_cases hab : a = b
        · subst hab
          have := ih as bs (fun c hc => ht c (by simp [hc])) (by simpa using hn)
          simp [this]
        · simp only [hab, if_false]
          constructor
          · intro h; exact absurd h (char_toNat_ne hab)
          · intro h; injection h with h1 _; exact absurd h1 hab

theorem strncmp_TRUE (v : String) : strncmp v "TRUE" 4 = 0 ↔ BeginsWith v "TRUE" := by
  unfold strncmp BeginsWith
  rw [strncmpAux_eq_zero_iff 4 v.data "TRUE".data (by decide) (by decide)]
  constructor <;> intro h <;> simpa using h

theorem strncmp_FALSE (v : String) : strncmp v "FALSE" 5 = 0 ↔ BeginsWith v "FALSE" := by
  unfold strncmp BeginsWith
  rw [strncmpAux_eq_zero_iff 5 v.data "FALSE".data (by decide) (by decide)]
  constructor <;> intro h <;> simpa using h


@[simp] theorem andThen_ok {σ : Type} (s : σ) (f : σ → Outcome σ) :
    (Outcome.ok s).andThen f = f s := rfl

@[simp] theorem andThen_fatal {σ : Type} (e : String) (c : Nat) (s : σ) (f : σ → Outcome σ) :
    (Outcome.fatal e c s).andThen f = Outcome.fatal e c s := rfl

theorem andThen_eq_ok {σ : Type} {o : Outcome σ} {f : σ → Outcome σ} {s2 : σ}
    (h : o.andThen f = Outcome.ok s2) : ∃ s1, o = Outcome.ok s1 ∧ f s1 = Outcome.ok s2 := by
  cases o with
  | ok s => exact ⟨s, rfl, h⟩
  | fatal e c s => simp at h

/-- One period succeeds exactly when both timestamps parse and the start is not
after the end; both are then stored at index `i`. -/
theorem sedPeriod_eq_ok {env : Collaborators} {Input : LISTPTR} {i : Nat} {T T1 : TIMESTRUCT}
    (h : sedPeriod env Input i T = Outcome.ok T1) :
    ∃ s e, env.SScanDate (periodVarStr env Input 0 i) = some s ∧
      env.SScanDate (periodVarStr env Input 1 i) = some e ∧ env.After s e = false ∧
      T1 = { T with StartSed := T.StartSed.map (fun l => l.set i s),
                    EndSed := T.EndSed.map (fun l => l.set i e) } := by
  unfold sedPeriod at h
  cases hs : env.SScanDate (periodVarStr env Input 0 i) with
  | none => simp [hs, ReportError] at h
  | some s =>
    cases he : env.SScanDate (periodVarStr env Input 1 i) with
    | none => simp [hs, he, ReportError] at h
    | some e =>
      cases ha : env.After s e with
      | true => simp [hs, he, ha, ReportError] at h
      | false =>
        simp [hs, he, ha] at h
        exact ⟨s, e, rfl, rfl, ha, h.symm⟩

theorem sedPeriod_ok_of {env : Collaborators} {Input : LISTPTR} {i : Nat} (T : TIMESTRUCT)
    {s e : DATE} (hs : env.SScanDate (periodVarStr env Input 0 i) = some s)
    (he : env.SScanDate (periodVarStr env Input 1 i) = some e) (ha : env.After s e = false) :
    sedPeriod env Input i T = Outcome.ok
      { T with StartSed := T.StartSed.map (fun l => l.set i s),
               EndSed := T.EndSed.map (fun l => l.set i e) } := by
  simp [sedPeriod, hs, he, ha]

theorem sedPeriod_fatal_of {env : Collaborators} {Input : LISTPTR} {i : Nat} (T : TIMESTRUCT)
    {s e : DATE} (hs : env.SScanDate (periodVarStr env Input 0 i) = some s)
    (he : env.SScanDate (periodVarStr env Input 1 i) = some e) (ha : env.After s e = true) :
    sedPeriod env Input i T = Outcome.fatal SectionName 23
      { T with StartSed := T.StartSed.map (fun l => l.set i s),
               EndSed := T.EndSed.map (fun l => l.set i e) } := by
  simp [sedPeriod, hs, he, ha, ReportError]

/-- What a completed period loop leaves behind: the step count is untouched,
entries below the first index are untouched, and every entry the loop ran
over holds the parsed pair of its period, whose start is not after its end. -/
theorem sedLoop_eq_ok (env : Collaborators) (Input : LISTPTR) :
    ∀ (k i : Nat) (T T1 : TIMESTRUCT) (S E : List DATE),
      sedLoop env Input k i T = Outcome.ok T1 →
      T.StartSed = some S → T.EndSed = some E →
      T1.NSETotalSteps = T.NSETotalSteps ∧
      ∃ S1 E1, T1.StartSed = some S1 ∧ T1.EndSed = some E1 ∧
        S1.length = S.length ∧ E1.length = E.length ∧
        (∀ j, j < i → S1[j]? = S[j]? ∧ E1[j]? = E[j]?) ∧
        (∀ j, i ≤ j → j < i + k → j < S.length → j < E.length →
          ∃ s e, S1[j]? = some s ∧ E1[j]? = some e ∧
            env.SScanDate (periodVarStr env Input 0 j) = some s ∧
            env.SScanDate (periodVarStr env Input 1 j) = some e ∧
            env.After s e = false) := by
  intro k
  induction k with
  | zero =>
    intro i T T1 S E h hS hE
    simp [sedLoop] at h
    subst h
    exact ⟨rfl, S, E, hS, hE, rfl, rfl, fun j _ => ⟨rfl, rfl⟩, fun j h1 h2 => by omega⟩
  | succ k ih =>
    intro i T T1 S E h hS hE
    simp only [sedLoop] at h
    obtain ⟨T2, h2, h3⟩ := andThen_eq_ok h
    obtain ⟨s, e, hs, he, ha, hT2⟩ := sedPeriod_eq_ok h2
    have hS2 : T2.StartSed = some (S.set i s) := by simp [hT2, hS]
    have hE2 : T2.EndSed = some (E.set i e) := by simp [hT2, hE]
    obtain ⟨hN, S1, E1, hS1, hE1, hlS, hlE, hlow, hhigh⟩ := ih (i + 1) T2 T1 _ _ h3 hS2 hE2
    refine ⟨by rw [hN, hT2], S1, E1, hS1, hE1, by simpa using hlS, by simpa using hlE, ?_, ?_⟩
    · intro j hj
      obtain ⟨a, b⟩ := hlow j (by omega)
      rw [a, b]
      constructor
      · exact List.getElem?_set_ne (by omega)
      · exact List.getElem?_set_ne (by omega)
    · intro j hij hjk hjS hjE
      by_cases hji : j = i
      · subst hji
        obtain ⟨a, b⟩ := hlow j (by omega)
        refine ⟨s, e, ?_, ?_, hs, he, ha⟩
        · rw [a]; simp [List.getElem?_set_self, hjS]
        · rw [b]; simp [List.getElem?_set_self, hjE]
      · exact hhigh j (by omega) (by omega) (by simpa using hjS) (by simpa using hjE)

/-- The period loop completes when every period it runs over parses to a pair
whose start is not after its end. -/
theorem sedLoop_ok_of (env : Collaborators) (Input : LISTPTR) :
    ∀ (k i : Nat) (T : TIMESTRUCT),
      (∀ j, i ≤ j → j < i + k → ∃ s e,
        env.SScanDate (periodVarStr env Input 0 j) = some s ∧
        env.SScanDate (periodVarStr env Input 1 j) = some e ∧ env.After s e = false) →
      ∃ T1, sedLoop env Input k i T = Outcome.ok T1 := by
  intro k
  induction k with
  | zero => intro i T _; exact ⟨T, rfl⟩
  | succ k ih =>
    intro i T h
    obtain ⟨s, e, hs, he, ha⟩ := h i (le_refl i) (by omega)
    simp only [sedLoop, sedPeriod_ok_of T hs he ha, andThen_ok]
    exact ih (i + 1) _ (fun j h1 h2 => h j (by omega) (by omega))

/-- The period loop stops with code 23 when some period it runs over fails the
check of line 246 and the periods before that one parse. -/
theorem sedLoop_fatal_of (env : Collaborators) (Input : LISTPTR) :
    ∀ (k i : Nat) (T : TIMESTRUCT) (m : Nat) (s e : DATE), i ≤ m → m < i + k →
      (∀ j, i ≤ j → j < m → ∃ s0 e0,
        env.SScanDate (periodVarStr env Input 0 j) = some s0 ∧
        env.SScanDate (periodVarStr env Input 1 j) = some e0) →
      env.SScanDate (periodVarStr env Input 0 m) = some s →
      env.SScanDate (periodVarStr env Input 1 m) = some e → env.After s e = true →
      ∃ T1, sedLoop env Input k i T = Outcome.fatal SectionName 23 T1 := by
  intro k
  induction k with
  | zero => intro i T m s e h1 h2; omega
  | succ k ih =>
    intro i T m s e h1 h2 hbefore hs he ha
    by_cases hmi : m = i
    · subst hmi
      simp only [sedLoop, sedPeriod_fatal_of T hs he ha, andThen_fatal]
      exact ⟨_, rfl⟩
    · obtain ⟨s0, e0, hs0, he0⟩ := hbefore i (le_refl i) (by omega)
      cases ha0 : env.After s0 e0 with
      | true =>
        simp only [sedLoop, sedPeriod_fatal_of T hs0 he0 ha0, andThen_fatal]
        exact ⟨_, rfl⟩
      | false =>
        simp only [sedLoop, sedPeriod_ok_of T hs0 he0 ha0, andThen_ok]
        exact ih (i + 1) _ m s e (by omega) (by omega)
          (fun j h3 h4 => hbefore j (by omega) h4) hs he ha

/-! ## `InitSurfaceSed`: the erosion schedule -/

/-- The outcome of `InitSurfaceSed` once the step count parsed to `N ≥ 0` and
both allocations were satisfied: the period loop run on the zero-filled
sequences. -/
theorem InitSurfaceSed_eq_sedLoop {env : Collaborators} {Input : LISTPTR} (Time : TIMESTRUCT)
    {N : Int} (hN : env.CopyInt (timeStepsVarStr env Input) = some N) (h0 : 0 ≤ N)
    (hc : env.calloc N.toNat = true) :
    InitSurfaceSed env Input Time = sedLoop env Input N.toNat 0
      { NSETotalSteps := N, StartSed := some (List.replicate N.toNat DATE.zero),
        EndSed := some (List.replicate N.toNat DATE.zero) } := by
  have h1 : ¬ N < 0 := by omega
  simp [InitSurfaceSed, hN, h1, callocDATE, hc]

/-- A completed `InitSurfaceSed` read a step count `N ≥ 0` and ran the period
loop on zero-filled sequences of length `N`. -/
theorem InitSurfaceSed_eq_ok {env : Collaborators} {Input : LISTPTR} {Time T1 : TIMESTRUCT}
    (h : InitSurfaceSed env Input Time = Outcome.ok T1) :
    ∃ N : Int, env.CopyInt (timeStepsVarStr env Input) = some N ∧ 0 ≤ N ∧
      env.calloc N.toNat = true ∧
      sedLoop env Input N.toNat 0
        { NSETotalSteps := N, StartSed := some (List.replicate N.toNat DATE.zero),
          EndSed := some (List.replicate N.toNat DATE.zero) } = Outcome.ok T1 := by
  cases hN : env.CopyInt (timeStepsVarStr env Input) with
  | none => simp [InitSurfaceSed, hN, ReportError] at h
  | some N =>
    by_cases h0 : N < 0
    · simp [InitSurfaceSed, hN, h0, ReportError] at h
    · cases hc : env.calloc N.toNat with
      | false => simp [InitSurfaceSed, hN, h0, callocDATE, hc, ReportError] at h
      | true =>
        rw [InitSurfaceSed_eq_sedLoop Time hN (by omega) hc] at h
        exact ⟨N, rfl, by omega, hc, h⟩

/-- The schedule a completed `InitSurfaceSed` leaves: both sequences have the
length of the step count, and entry `i` of each is the parsed timestamp of
period `i + 1`, the start not after the end. -/
theorem InitSurfaceSed_ok_schedule {env : Collaborators} {Input : LISTPTR} {Time T1 : TIMESTRUCT}
    (h : InitSurfaceSed env Input Time = Outcome.ok T1) :
    env.CopyInt (timeStepsVarStr env Input) = some T1.NSETotalSteps ∧ 0 ≤ T1.NSETotalSteps ∧
    ∃ S E, T1.StartSed = some S ∧ T1.EndSed = some E ∧
      S.length = T1.NSETotalSteps.toNat ∧ E.length = T1.NSETotalSteps.toNat ∧
      ∀ i, i < T1.NSETotalSteps.toNat → ∃ s e, S[i]? = some s ∧ E[i]? = some e ∧
        env.SScanDate (periodVarStr env Input 0 i) = some s ∧
        env.SScanDate (periodVarStr env Input 1 i) = some e ∧ env.After s e = false := by
  obtain ⟨N, hN, h0, _, hl⟩ := InitSurfaceSed_eq_ok h
  obtain ⟨hsteps, S, E, hS, hE, hlS, hlE, _, hhigh⟩ :=
    sedLoop_eq_ok env Input N.toNat 0 _ T1 _ _ hl rfl rfl
  simp only at hsteps
  rw [hsteps]
  refine ⟨hN, h0, S, E, hS, hE, by simpa using hlS, by simpa using hlE, ?_⟩
  intro i hi
  exact hhigh i (Nat.zero_le i) (by omega) (by simpa using hi) (by simpa using hi)

theorem Before_irrefl (d : DATE) : Before d d = false := by
  simp [Before]

/-- Claim C2. With the check `After` of line 246 as the spec describes it
(`After (start, end)` holds exactly when the start is not strictly before the
end): when `InitSurfaceSed` succeeds, both sequences have the length of the step
count and at every index `StartSed[i]` is strictly before `EndSed[i]`; and when
the step count parses to `N ≥ 0`, the allocations are satisfied, the periods
before index `m < N` parse and period `m` parses to a start that is not
strictly before its end (equal timestamps included), `InitSurfaceSed` stops
with code 23 on the section "SEDTIME", and with no code 51. -/
theorem InitSurfaceSed_period_order (env : Collaborators) (Input : LISTPTR) (Time : TIMESTRUCT)
    (hAfter : ∀ a b, env.After a b = After a b) :
    (∀ T1, InitSurfaceSed env Input Time = Outcome.ok T1 →
      ∃ S E, T1.StartSed = some S ∧ T1.EndSed = some E ∧
        S.length = T1.NSETotalSteps.toNat ∧ E.length = T1.NSETotalSteps.toNat ∧
        ∀ i, i < T1.NSETotalSteps.toNat →
          ∃ s e, S[i]? = some s ∧ E[i]? = some e ∧ Before s e = true) ∧
    (∀ (N : Int) (m : Nat) (s e : DATE),
      env.CopyInt (timeStepsVarStr env Input) = some N → (m : Int) < N →
      env.calloc N.toNat = true →
      (∀ j, j < m → ∃ s0 e0,
        env.SScanDate (periodVarStr env Input 0 j) = some s0 ∧
        env.SScanDate (periodVarStr env Input 1 j) = some e0) →
      env.SScanDate (periodVarStr env Input 0 m) = some s →
      env.SScanDate (periodVarStr env Input 1 m) = some e →
      Before s e = false →
      ∃ T1, InitSurfaceSed env Input Time = Outcome.fatal "SEDTIME" 23 T1 ∧
        ∀ k T2, InitSurfaceSed env Input Time ≠ Outcome.fatal k 51 T2) := by
  constructor
  · intro T1 h
    obtain ⟨_, _, S, E, hS, hE, hlS, hlE, hall⟩ := InitSurfaceSed_ok_schedule h
    refine ⟨S, E, hS, hE, hlS, hlE, ?_⟩
    intro i hi
    obtain ⟨s, e, h1, h2, _, _, h3⟩ := hall i hi
    rw [hAfter] at h3
    refine ⟨s, e, h1, h2, ?_⟩
    unfold After at h3
    simpa using h3
  · intro N m s e hN hm hc hbefore hs he hb
    have h0 : 0 ≤ N := by omega
    have ha : env.After s e = true := by
      rw [hAfter]; unfold After; rw [hb]; rfl
    obtain ⟨T1, hT1⟩ := sedLoop_fatal_of env Input N.toNat 0
      { NSETotalSteps := N, StartSed := some (List.replicate N.toNat DATE.zero),
        EndSed := some (List.replicate N.toNat DATE.zero) } m s e (Nat.zero_le m) (by omega)
      (fun j _ hj => hbefore j hj) hs he ha
    rw [InitSurfaceSed_eq_sedLoop Time hN h0 hc, hT1]
    refine ⟨T1, rfl, ?_⟩
    intro k T2 hk
    injection hk with _ h51 _
    exact absurd h51 (by decide)

/-- Three instances: scenario 2 succeeds with two periods, each start strictly
before its end; scenario 3 (Mar 10 2001 to Mar 5 2001) stops with code 23; so
does a period whose start and end are both Mar 10 2001. -/
theorem InitSurfaceSed_period_order_witness :
    (InitSurfaceSed sampleEnv scenario2Input emptyTime = Outcome.ok scenario2Schedule ∧
      ∃ S E, scenario2Schedule.StartSed = some S ∧ scenario2Schedule.EndSed = some E ∧
        S.length = scenario2Schedule.NSETotalSteps.toNat ∧
        E.length = scenario2Schedule.NSETotalSteps.toNat ∧
        ∀ i, i < scenario2Schedule.NSETotalSteps.toNat →
          ∃ s e, S[i]? = some s ∧ E[i]? = some e ∧ Before s e = true) ∧
    (∃ T1, InitSurfaceSed sampleEnv scenario3Input emptyTime = Outcome.fatal "SEDTIME" 23 T1 ∧
      ∀ k T2, InitSurfaceSed sampleEnv scenario3Input emptyTime ≠ Outcome.fatal k 51 T2) ∧
    (∃ T1, InitSurfaceSed sampleEnv equalPeriodInput emptyTime =
        Outcome.fatal "SEDTIME" 23 T1 ∧
      ∀ k T2, InitSurfaceSed sampleEnv equalPeriodInput emptyTime ≠ Outcome.fatal k 51 T2) :=
  ⟨⟨rfl, (InitSurfaceSed_period_order sampleEnv scenario2Input emptyTime
      (fun _ _ => rfl)).1 scenario2Schedule rfl⟩,
   (InitSurfaceSed_period_order sampleEnv scenario3Input emptyTime (fun _ _ => rfl)).2 1 0
     ⟨2001, 3, 10, 0, 0, 0⟩ ⟨2001, 3, 5, 0, 0, 0⟩ rfl (by decide) rfl
     (fun j hj => absurd hj (Nat.not_lt_zero j)) rfl rfl rfl,
   (InitSurfaceSed_period_order sampleEnv equalPeriodInput emptyTime (fun _ _ => rfl)).2 1 0
     ⟨2001, 3, 10, 0, 0, 0⟩ ⟨2001, 3, 10, 0, 0, 0⟩ rfl (by decide) rfl
     (fun j hj => absurd hj (Nat.not_lt_zero j)) rfl rfl (Before_irrefl _)⟩

/-- Claim C5. When the TIME STEPS value does not parse as an integer, or parses
to a negative integer, `InitSurfaceSed` stops with code 51 and the `StartSed`
and `EndSed` sequences are those of entry: no allocation took place. -/
theorem InitSurfaceSed_bad_step_count (env : Collaborators) (Input : LISTPTR) (Time : TIMESTRUCT)
    (h : env.CopyInt (timeStepsVarStr env Input) = none ∨
      ∃ n : Int, env.CopyInt (timeStepsVarStr env Input) = some n ∧ n < 0) :
    ∃ k T1, InitSurfaceSed env Input Time = Outcome.fatal k 51 T1 ∧
      T1.StartSed = Time.StartSed ∧ T1.EndSed = Time.EndSed := by
  rcases h with h | ⟨n, hn, hneg⟩
  · exact ⟨"TIME STEPS", Time, by simp [InitSurfaceSed, h, ReportError], rfl, rfl⟩
  · exact ⟨SectionName, { Time with NSETotalSteps := n },
      by simp [InitSurfaceSed, hn, hneg, ReportError], rfl, rfl⟩

/-- An instance: the step count "-1". -/
theorem InitSurfaceSed_bad_step_count_witness :
    (sampleEnv.CopyInt (timeStepsVarStr sampleEnv negativeStepsInput) = none ∨
      ∃ n : Int, sampleEnv.CopyInt (timeStepsVarStr sampleEnv negativeStepsInput) = some n ∧
        n < 0) ∧
    ∃ k T1, InitSurfaceSed sampleEnv negativeStepsInput emptyTime = Outcome.fatal k 51 T1 ∧
      T1.StartSed = emptyTime.StartSed ∧ T1.EndSed = emptyTime.EndSed :=
  ⟨Or.inr ⟨-1, rfl, by decide⟩,
   InitSurfaceSed_bad_step_count sampleEnv negativeStepsInput emptyTime
     (Or.inr ⟨-1, rfl, by decide⟩)⟩

/-! ## The four switches -/

theorem not_TRUE_of_FALSE {v : String} (h : BeginsWith v "FALSE") : ¬ BeginsWith v "TRUE" := by
  unfold BeginsWith at *
  intro h1
  have h5 : v.data.take 5 = "FALSE".data := h
  have h4 : v.data.take 4 = "TRUE".data := h1
  have h2 : (v.data.take 5).take 4 = v.data.take 4 := by
    rw [List.take_take]; rfl
  rw [h5, h4] at h2
  exact absurd h2 (by decide)

theorem state_andThen {σ α : Type} (π : σ → α) (o : Outcome σ) (f : σ → Outcome σ)
    (hf : ∀ s, π (f s).state = π s) : π (o.andThen f).state = π o.state := by
  cases o with
  | ok s => exact hf s
  | fatal e c s => rfl

theorem state_of_eq_ok {σ : Type} {o : Outcome σ} {s : σ} (h : o = Outcome.ok s) :
    o.state = s := by
  rw [h]; rfl

theorem resolveMassWaste_TRUE {env : Collaborators} {Input : LISTPTR} (st : State)
    (h : BeginsWith (VarStr env Input mass_wasting) "TRUE") :
    resolveMassWaste env Input st =
      Outcome.ok { st with Options := { st.Options with MassWaste := true } } := by
  simp [resolveMassWaste, (strncmp_TRUE _).2 h]

theorem resolveMassWaste_FALSE {env : Collaborators} {Input : LISTPTR} (st : State)
    (h : BeginsWith (VarStr env Input mass_wasting) "FALSE") :
    resolveMassWaste env Input st =
      Outcome.ok { st with Options := { st.Options with MassWaste := false } } := by
  have h1 := not_TRUE_of_FALSE h
  rw [← strncmp_TRUE] at h1
  simp [resolveMassWaste, (strncmp_FALSE _).2 h, h1]

theorem resolveMassWaste_other {env : Collaborators} {Input : LISTPTR} (st : State)
    (h : ¬ ValidSwitch (VarStr env Input mass_wasting)) :
    resolveMassWaste env Input st = Outcome.fatal "MASS WASTING" 51 st := by
  unfold ValidSwitch at h
  rw [← strncmp_TRUE, ← strncmp_FALSE] at h
  push_neg at h
  simp [resolveMassWaste, h.1, h.2, ReportError]
  rfl

theorem resolveSurfaceErosion_TRUE {env : Collaborators} {Input : LISTPTR} (st : State)
    (h : BeginsWith (VarStr env Input surface_erosion) "TRUE") :
    resolveSurfaceErosion env Input st = Outcome.ok { st with Options :=
      { st.Options with ErosionPeriod := true, SurfaceErosion := true } } := by
  simp [resolveSurfaceErosion, (strncmp_TRUE _).2 h]

theorem resolveSurfaceErosion_FALSE {env : Collaborators} {Input : LISTPTR} (st : State)
    (h : BeginsWith (VarStr env Input surface_erosion) "FALSE") :
    resolveSurfaceErosion env Input st = Outcome.ok { st with Options :=
      { st.Options with ErosionPeriod := false, SurfaceErosion := false } } := by
  have h1 := not_TRUE_of_FALSE h
  rw [← strncmp_TRUE] at h1
  simp [resolveSurfaceErosion, (strncmp_FALSE _).2 h, h1]

theorem resolveSurfaceErosion_other {env : Collaborators} {Input : LISTPTR} (st : State)
    (h : ¬ ValidSwitch (VarStr env Input surface_erosion)) :
    resolveSurfaceErosion env Input st = Outcome.fatal "SURFACE EROSION" 51 st := by
  unfold ValidSwitch at h
  rw [← strncmp_TRUE, ← strncmp_FALSE] at h
  push_neg at h
  simp [resolveSurfaceErosion, h.1, h.2, ReportError]
  rfl

theorem resolveRoadErosion_TRUE {env : Collaborators} {Input : LISTPTR} (st : State)
    (h : BeginsWith (VarStr env Input road_erosion) "TRUE") :
    resolveRoadErosion env Input st = Outcome.ok { st with Options :=
      { st.Options with RoadRouting := st.ChannelData.roads.isSome } } := by
  cases hr : st.ChannelData.roads <;>
    simp [resolveRoadErosion, (strncmp_TRUE _).2 h, hr]

theorem resolveRoadErosion_FALSE {env : Collaborators} {Input : LISTPTR} (st : State)
    (h : BeginsWith (VarStr env Input road_erosion) "FALSE") :
    resolveRoadErosion env Input st =
      Outcome.ok { st with Options := { st.Options with RoadRouting := false } } := by
  have h1 := not_TRUE_of_FALSE h
  rw [← strncmp_TRUE] at h1
  simp [resolveRoadErosion, (strncmp_FALSE _).2 h, h1]

theorem resolveRoadErosion_other {env : Collaborators} {Input : LISTPTR} (st : State)
    (h : ¬ ValidSwitch (VarStr env Input road_erosion)) :
    resolveRoadErosion env Input st = Outcome.fatal "ROAD EROSION" 51 st := by
  unfold ValidSwitch at h
  rw [← strncmp_TRUE, ← strncmp_FALSE] at h
  push_neg at h
  simp [resolveRoadErosion, h.1, h.2, ReportError]
  rfl

theorem resolveChannelRouting_TRUE {env : Collaborators} {Input : LISTPTR} (st : State)
    (h : BeginsWith (VarStr env Input channel_routing) "TRUE") :
    resolveChannelRouting env Input st =
      Outcome.ok { st with Options := { st.Options with ChannelRouting := true } } := by
  simp [resolveChannelRouting, (strncmp_TRUE _).2 h]

theorem resolveChannelRouting_FALSE {env : Collaborators} {Input : LISTPTR} (st : State)
    (h : BeginsWith (VarStr env Input channel_routing) "FALSE") :
    resolveChannelRouting env Input st =
      Outcome.ok { st with Options := { st.Options with ChannelRouting := false } } := by
  have h1 := not_TRUE_of_FALSE h
  rw [← strncmp_TRUE] at h1
  simp [resolveChannelRouting, (strncmp_FALSE _).2 h, h1]

theorem resolveChannelRouting_other {env : Collaborators} {Input : LISTPTR} (st : State)
    (h : ¬ ValidSwitch (VarStr env Input channel_routing)) :
    resolveChannelRouting env Input st = Outcome.fatal "CHANNEL ROUTING" 51 st := by
  unfold ValidSwitch at h
  rw [← strncmp_TRUE, ← strncmp_FALSE] at h
  push_neg at h
  simp [resolveChannelRouting, h.1, h.2, ReportError]
  rfl

/-! ## The road cell allocation -/

theorem allocBuffer_frame (env : Collaborators)
    (setBuf : ROADSTRUCT → Option (List ℚ) → ROADSTRUCT) (y x : Nat) (s : State) :
    roadFrame (allocBuffer env setBuf y x s).state = roadFrame s := by
  unfold allocBuffer
  simp only
  split <;> rfl

theorem roadCell_frame (env : Collaborators) (y x : Nat) (s : State) :
    roadFrame (roadCell env y x s).state = roadFrame s := by
  unfold roadCell
  split
  · split
    · rw [state_andThen roadFrame _ _ (allocBuffer_frame env _ y x),
        state_andThen roadFrame _ _ (allocBuffer_frame env _ y x),
        state_andThen roadFrame _ _ (allocBuffer_frame env _ y x),
        state_andThen roadFrame _ _ (allocBuffer_frame env _ y x)]
      exact allocBuffer_frame env _ y x s
    · rfl
  · rfl

theorem roadRowLoop_frame (env : Collaborators) (y : Nat) :
    ∀ (k x : Nat) (s : State), roadFrame (roadRowLoop env y k x s).state = roadFrame s := by
  intro k
  induction k with
  | zero => intro x s; rfl
  | succ k ih =>
    intro x s
    simp only [roadRowLoop]
    rw [state_andThen roadFrame _ _ (ih (x + 1))]
    exact roadCell_frame env y x s

theorem roadGridLoop_frame (env : Collaborators) :
    ∀ (k y : Nat) (s : State), roadFrame (roadGridLoop env k y s).state = roadFrame s := by
  intro k
  induction k with
  | zero => intro y s; rfl
  | succ k ih =>
    intro y s
    simp only [roadGridLoop]
    rw [state_andThen roadFrame _ _ (ih (y + 1))]
    exact roadRowLoop_frame env y _ 0 s

theorem RoadCellAllocator_frame (env : Collaborators) (s : State) :
    roadFrame (RoadCellAllocator env s).state = roadFrame s := by
  unfold RoadCellAllocator
  split
  · exact roadGridLoop_frame env _ 0 s
  · rfl

theorem roadCell_skip {env : Collaborators} {y x : Nat} {s : State}
    (h : ¬ Qualifies env s y x) : roadCell env y x s = Outcome.ok s := by
  unfold Qualifies at h
  unfold roadCell
  by_cases h1 : env.INBASIN (s.TopoMap y x).Mask = true
  · have h2 : ¬ (s.Network y x).RoadArea > 0 := fun h2 => h ⟨h1, h2⟩
    simp [h1, h2]
  · simp [h1]

theorem roadCell_alloc {env : Collaborators} {y x : Nat} {s : State}
    (h : Qualifies env s y x) (hc : env.calloc env.CELLFACTOR = true) :
    roadCell env y x s = Outcome.ok
      { s with Network := setCell s.Network y x (allocated env (s.Network y x)) } := by
  obtain ⟨h1, h2⟩ := h
  simp only [roadCell, h1, h2, if_true, allocBuffer, callocFloat, hc, Option.isNone_some,
    andThen_ok, Bool.false_eq_true, if_false]
  congr 2
  funext y1 x1
  simp only [setCell, allocated]
  split <;> simp_all

theorem roadCell_fail {env : Collaborators} {y x : Nat} {s : State}
    (h : Qualifies env s y x) (hc : env.calloc env.CELLFACTOR = false) :
    ∃ s1, roadCell env y x s = Outcome.fatal "InitParameters" 1 s1 := by
  obtain ⟨h1, h2⟩ := h
  simp [roadCell, h1, h2, allocBuffer, callocFloat, hc, ReportError]

theorem roadCell_network {env : Collaborators} {y x : Nat} {s s1 : State}
    (h : roadCell env y x s = Outcome.ok s1) (y1 x1 : Nat) :
    s1.Network y1 x1 =
      if y1 = y ∧ x1 = x ∧ Qualifies env s y x then allocated env (s.Network y1 x1)
      else s.Network y1 x1 := by
  by_cases hq : Qualifies env s y x
  · cases hc : env.calloc env.CELLFACTOR with
    | false =>
      obtain ⟨s2, h2⟩ := roadCell_fail hq hc
      rw [h2] at h; cases h
    | true =>
      rw [roadCell_alloc hq hc] at h
      injection h with h
      subst h
      simp only [setCell]
      by_cases hyx : y1 = y ∧ x1 = x
      · obtain ⟨rfl, rfl⟩ := hyx
        simp [hq]
      · have : ¬ (y1 = y ∧ x1 = x ∧ Qualifies env s y x) := fun h3 => hyx ⟨h3.1, h3.2.1⟩
        simp [hyx, this]
  · rw [roadCell_skip hq] at h
    injection h with h
    subst h
    simp [hq]
theorem frame_of_eq_ok {f : State → Outcome State} {s s1 : State}
    (hf : roadFrame (f s).state = roadFrame s) (h : f s = Outcome.ok s1) :
    s1.Options = s.Options ∧ s1.Map = s.Map ∧ s1.ChannelData = s.ChannelData ∧
      s1.Time = s.Time ∧ s1.TopoMap = s.TopoMap := by
  rw [h] at hf
  simp only [Outcome.state, roadFrame, Prod.mk.injEq] at hf
  exact hf

theorem qualifies_congr {env : Collaborators} {s s2 : State} {y x : Nat}
    (hT : s2.TopoMap = s.TopoMap) (hN : s2.Network y x = s.Network y x) :
    Qualifies env s2 y x ↔ Qualifies env s y x := by
  unfold Qualifies
  rw [hT, hN]

/-- The road network after a completed row loop: the qualifying cells of the
columns it ran over are allocated, every other cell is as before. -/
theorem roadRowLoop_network (env : Collaborators) (y : Nat) :
    ∀ (k x0 : Nat) (s s1 : State), roadRowLoop env y k x0 s = Outcome.ok s1 →
      ∀ y1 x1, s1.Network y1 x1 =
        if y1 = y ∧ x0 ≤ x1 ∧ x1 < x0 + k ∧ Qualifies env s y1 x1
        then allocated env (s.Network y1 x1) else s.Network y1 x1 := by
  intro k
  induction k with
  | zero =>
    intro x0 s s1 h y1 x1
    simp only [roadRowLoop] at h
    injection h with h
    subst h
    have : ¬ (y1 = y ∧ x0 ≤ x1 ∧ x1 < x0 + 0 ∧ Qualifies env s y1 x1) := by
      intro h; omega
    rw [if_neg this]
  | succ k ih =>
    intro x0 s s1 h y1 x1
    simp only [roadRowLoop] at h
    obtain ⟨s2, h2, h3⟩ := andThen_eq_ok h
    have hfr := frame_of_eq_ok (roadCell_frame env y x0 s) h2
    have hcell := roadCell_network h2 y1 x1
    rw [ih (x0 + 1) s2 s1 h3 y1 x1]
    by_cases hyx : y1 = y ∧ x1 = x0
    · obtain ⟨rfl, rfl⟩ := hyx
      have h4 : ¬ (y1 = y1 ∧ x1 + 1 ≤ x1 ∧ x1 < x1 + 1 + k ∧ Qualifies env s2 y1 x1) := by
        intro h; omega
      rw [if_neg h4, hcell]
      by_cases hq : Qualifies env s y1 x1
      · simp [hq]
      · simp [hq]
    · have h4 : ¬ (y1 = y ∧ x1 = x0 ∧ Qualifies env s y x0) := fun h => hyx ⟨h.1, h.2.1⟩
      rw [if_neg h4] at hcell
      rw [hcell]
      have hq := @qualifies_congr env _ _ _ _ hfr.2.2.2.2 hcell
      by_cases hc : y1 = y ∧ x0 + 1 ≤ x1 ∧ x1 < x0 + 1 + k ∧ Qualifies env s2 y1 x1
      · have hc2 : y1 = y ∧ x0 ≤ x1 ∧ x1 < x0 + (k + 1) ∧ Qualifies env s y1 x1 :=
          ⟨hc.1, by omega, by omega, hq.1 hc.2.2.2⟩
        rw [if_pos hc, if_pos hc2]
      · have hc2 : ¬ (y1 = y ∧ x0 ≤ x1 ∧ x1 < x0 + (k + 1) ∧ Qualifies env s y1 x1) := by
          intro h5
          apply hc
          refine ⟨h5.1, ?_, by omega, hq.2 h5.2.2.2⟩
          by_contra h6
          exact hyx ⟨h5.1, by omega⟩
        rw [if_neg hc, if_neg hc2]

/-- The road network after a completed grid loop: the qualifying cells of the
rows it ran over, in the columns below `NX`, are allocated, every other cell
is as before. -/
theorem roadGridLoop_network (env : Collaborators) :
    ∀ (k y0 : Nat) (s s1 : State), roadGridLoop env k y0 s = Outcome.ok s1 →
      ∀ y1 x1, s1.Network y1 x1 =
        if y0 ≤ y1 ∧ y1 < y0 + k ∧ x1 < s.Map.NX.toNat ∧ Qualifies env s y1 x1
        then allocated env (s.Network y1 x1) else s.Network y1 x1 := by
  intro k
  induction k with
  | zero =>
    intro y0 s s1 h y1 x1
    simp only [roadGridLoop] at h
    injection h with h
    subst h
    have : ¬ (y0 ≤ y1 ∧ y1 < y0 + 0 ∧ x1 < s.Map.NX.toNat ∧ Qualifies env s y1 x1) := by
      intro h; omega
    rw [if_neg this]
  | succ k ih =>
    intro y0 s s1 h y1 x1
    simp only [roadGridLoop] at h
    obtain ⟨s2, h2, h3⟩ := andThen_eq_ok h
    have hfr := frame_of_eq_ok (f := roadRowLoop env y0 s.Map.NX.toNat 0)
      (roadRowLoop_frame env y0 _ 0 s) h2
    have hrow := roadRowLoop_network env y0 _ 0 s s2 h2 y1 x1
    rw [ih (y0 + 1) s2 s1 h3 y1 x1, hfr.2.1]
    by_cases hy : y1 = y0
    · subst hy
      have h4 : ¬ (y1 + 1 ≤ y1 ∧ y1 < y1 + 1 + k ∧ x1 < s.Map.NX.toNat ∧
          Qualifies env s2 y1 x1) := by
        intro h; omega
      rw [if_neg h4, hrow]
      by_cases hq : x1 < s.Map.NX.toNat ∧ Qualifies env s y1 x1
      · have c1 : y1 = y1 ∧ 0 ≤ x1 ∧ x1 < 0 + s.Map.NX.toNat ∧ Qualifies env s y1 x1 :=
          ⟨rfl, Nat.zero_le _, by omega, hq.2⟩
        have c2 : y1 ≤ y1 ∧ y1 < y1 + (k + 1) ∧ x1 < s.Map.NX.toNat ∧ Qualifies env s y1 x1 :=
          ⟨le_refl _, by omega, hq.1, hq.2⟩
        rw [if_pos c1, if_pos c2]
      · have c1 : ¬ (y1 = y1 ∧ 0 ≤ x1 ∧ x1 < 0 + s.Map.NX.toNat ∧ Qualifies env s y1 x1) :=
          fun h5 => hq ⟨by omega, h5.2.2.2⟩
        have c2 : ¬ (y1 ≤ y1 ∧ y1 < y1 + (k + 1) ∧ x1 < s.Map.NX.toNat ∧
            Qualifies env s y1 x1) := fun h5 => hq ⟨h5.2.2.1, h5.2.2.2⟩
        rw [if_neg c1, if_neg c2]
    · have h4 : ¬ (y1 = y0 ∧ 0 ≤ x1 ∧ x1 < 0 + s.Map.NX.toNat ∧ Qualifies env s y1 x1) :=
        fun h => hy h.1
      rw [if_neg h4] at hrow
      rw [hrow]
      have hq := @qualifies_congr env _ _ _ _ hfr.2.2.2.2 hrow
      by_cases hc : y0 + 1 ≤ y1 ∧ y1 < y0 + 1 + k ∧ x1 < s.Map.NX.toNat ∧ Qualifies env s2 y1 x1
      · have hc2 : y0 ≤ y1 ∧ y1 < y0 + (k + 1) ∧ x1 < s.Map.NX.toNat ∧ Qualifies env s y1 x1 :=
          ⟨by omega, by omega, hc.2.2.1, hq.1 hc.2.2.2⟩
        rw [if_pos hc, if_pos hc2]
      · have hc2 : ¬ (y0 ≤ y1 ∧ y1 < y0 + (k + 1) ∧ x1 < s.Map.NX.toNat ∧
            Qualifies env s y1 x1) := by
          intro h5
          apply hc
          exact ⟨by omega, by omega, h5.2.2.1, hq.2 h5.2.2.2⟩
        rw [if_neg hc, if_neg hc2]

theorem roadRowLoop_completes (env : Collaborators) (y : Nat)
    (hc : env.calloc env.CELLFACTOR = true) :
    ∀ (k x0 : Nat) (s : State), ∃ s1, roadRowLoop env y k x0 s = Outcome.ok s1 := by
  intro k
  induction k with
  | zero => intro x0 s; exact ⟨s, rfl⟩
  | succ k ih =>
    intro x0 s
    simp only [roadRowLoop]
    by_cases hq : Qualifies env s y x0
    · rw [roadCell_alloc hq hc]; exact ih (x0 + 1) _
    · rw [roadCell_skip hq]; exact ih (x0 + 1) _

theorem roadGridLoop_completes (env : Collaborators) (hc : env.calloc env.CELLFACTOR = true) :
    ∀ (k y0 : Nat) (s : State), ∃ s1, roadGridLoop env k y0 s = Outcome.ok s1 := by
  intro k
  induction k with
  | zero => intro y0 s; exact ⟨s, rfl⟩
  | succ k ih =>
    intro y0 s
    simp only [roadGridLoop]
    obtain ⟨s2, h2⟩ := roadRowLoop_completes env y0 hc s.Map.NX.toNat 0 s
    rw [h2]
    exact ih (y0 + 1) s2

theorem RoadCellAllocator_completes (env : Collaborators) (s : State)
    (hc : env.calloc env.CELLFACTOR = true) :
    ∃ s1, RoadCellAllocator env s = Outcome.ok s1 := by
  unfold RoadCellAllocator
  split
  · exact roadGridLoop_completes env hc _ 0 s
  · exact ⟨s, rfl⟩

/-- The road network after a completed allocation stage. -/
theorem RoadCellAllocator_network {env : Collaborators} {s s1 : State}
    (h : RoadCellAllocator env s = Outcome.ok s1) (y x : Nat) :
    s1.Network y x =
      if s.Options.RoadRouting = true ∧ y < s.Map.NY.toNat ∧ x < s.Map.NX.toNat ∧
        Qualifies env s y x
      then allocated env (s.Network y x) else s.Network y x := by
  unfold RoadCellAllocator at h
  by_cases hr : s.Options.RoadRouting = true
  · rw [if_pos hr] at h
    rw [roadGridLoop_network env _ 0 s s1 h y x]
    simp [hr]
  · rw [if_neg hr] at h
    injection h with h
    subst h
    simp [hr]
theorem hasBuffers_allocated (env : Collaborators) (c : ROADSTRUCT) :
    HasBuffers (allocated env c) env.CELLFACTOR := by
  unfold HasBuffers allocated
  simp

theorem not_hasBuffers_of_noBuffers {c : ROADSTRUCT} {n : Nat} (h : NoBuffers c) :
    ¬ HasBuffers c n := by
  intro h1
  obtain ⟨⟨b, hb, _⟩, _⟩ := h1
  rw [h.1] at hb
  cases hb

/-- Claim C1. The allocation stage of lines 113-138 completes when `calloc` can
satisfy a request of `CELLFACTOR` floats. Whenever it completes, a cell `[y][x]`
of the grid (`y < NY`, `x < NX`) that held no buffer before holds the five
buffers, each of length `CELLFACTOR`, exactly when it is inside the basin mask,
its road area is positive and `RoadRouting` is set; and every cell that held no
buffer before and is not such a cell still holds none. -/
theorem RoadCellAllocator_buffers (env : Collaborators) (s : State) :
    (env.calloc env.CELLFACTOR = true → ∃ s1, RoadCellAllocator env s = Outcome.ok s1) ∧
    (∀ s1, RoadCellAllocator env s = Outcome.ok s1 →
      ∀ y x : Nat, NoBuffers (s.Network y x) →
        ((y : Int) < s.Map.NY → (x : Int) < s.Map.NX →
          (HasBuffers (s1.Network y x) env.CELLFACTOR ↔
            env.INBASIN (s.TopoMap y x).Mask = true ∧ (s.Network y x).RoadArea > 0 ∧
              s.Options.RoadRouting = true)) ∧
        (¬ ((y : Int) < s.Map.NY ∧ (x : Int) < s.Map.NX ∧
            env.INBASIN (s.TopoMap y x).Mask = true ∧ (s.Network y x).RoadArea > 0 ∧
              s.Options.RoadRouting = true) →
          NoBuffers (s1.Network y x))) := by
  refine ⟨RoadCellAllocator_completes env s, ?_⟩
  intro s1 h y x hnone
  have hnet := RoadCellAllocator_network h y x
  constructor
  · intro hy hx
    have hy1 : y < s.Map.NY.toNat := by omega
    have hx1 : x < s.Map.NX.toNat := by omega
    constructor
    · intro hb
      by_cases hc : s.Options.RoadRouting = true ∧ y < s.Map.NY.toNat ∧ x < s.Map.NX.toNat ∧
          Qualifies env s y x
      · exact ⟨hc.2.2.2.1, hc.2.2.2.2, hc.1⟩
      · rw [if_neg hc] at hnet
        rw [hnet] at hb
        exact absurd hb (not_hasBuffers_of_noBuffers hnone)
    · intro hq
      rw [if_pos ⟨hq.2.2, hy1, hx1, hq.1, hq.2.1⟩] at hnet
      rw [hnet]
      exact hasBuffers_allocated env _
  · intro hq
    have hc : ¬ (s.Options.RoadRouting = true ∧ y < s.Map.NY.toNat ∧ x < s.Map.NX.toNat ∧
        Qualifies env s y x) := by
      intro hc
      apply hq
      exact ⟨by omega, by omega, hc.2.2.2.1, hc.2.2.2.2, hc.1⟩
    rw [if_neg hc] at hnet
    rw [hnet]
    exact hnone

/-- Scenario 4 as an instance: on the 3×3 grid with
one in-basin cell of positive road area the stage completes, cell `[1][1]`
holds the five buffers of length 3 and the eight other cells hold none. -/
theorem RoadCellAllocator_buffers_witness :
    ∃ s1, RoadCellAllocator sampleEnv scenario4State = Outcome.ok s1 ∧
      HasBuffers (s1.Network 1 1) 3 ∧
      ∀ y x : Nat, y < 3 → x < 3 → ¬ (y = 1 ∧ x = 1) → NoBuffers (s1.Network y x) :=
  (RoadCellAllocator_buffers sampleEnv scenario4State).1 rfl |>.elim fun s1 h1 =>
    ⟨s1, h1,
      (((RoadCellAllocator_buffers sampleEnv scenario4State).2 s1 h1 1 1
        ⟨rfl, rfl, rfl, rfl, rfl⟩).1 (by decide) (by decide)).2
        ⟨rfl, by simp [scenario4State], rfl⟩,
      fun y x hy hx hyx =>
        ((RoadCellAllocator_buffers sampleEnv scenario4State).2 s1 h1 y x
          ⟨rfl, rfl, rfl, rfl, rfl⟩).2 (by
            intro hq
            have h3 : y < 3 := hy
            have h4 : x < 3 := hx
            interval_cases y <;> interval_cases x <;>
              simp_all [scenario4State, sampleEnv])⟩

/-! ## What each stage leaves untouched -/

theorem resolveMassWaste_state (env : Collaborators) (Input : LISTPTR) (s : State) :
    (resolveMassWaste env Input s).state.Network = s.Network ∧
    (resolveMassWaste env Input s).state.Map = s.Map ∧
    (resolveMassWaste env Input s).state.Time = s.Time ∧
    (resolveMassWaste env Input s).state.ChannelData = s.ChannelData := by
  unfold resolveMassWaste ReportError
  split_ifs <;> exact ⟨rfl, rfl, rfl, rfl⟩

theorem resolveSurfaceErosion_state (env : Collaborators) (Input : LISTPTR) (s : State) :
    (resolveSurfaceErosion env Input s).state.Network = s.Network ∧
    (resolveSurfaceErosion env Input s).state.Map = s.Map ∧
    (resolveSurfaceErosion env Input s).state.Time = s.Time ∧
    (resolveSurfaceErosion env Input s).state.ChannelData = s.ChannelData ∧
    (resolveSurfaceErosion env Input s).state.Options.MassWaste = s.Options.MassWaste := by
  unfold resolveSurfaceErosion ReportError
  split_ifs <;> exact ⟨rfl, rfl, rfl, rfl, rfl⟩

theorem resolveRoadErosion_state (env : Collaborators) (Input : LISTPTR) (s : State) :
    (resolveRoadErosion env Input s).state.Network = s.Network ∧
    (resolveRoadErosion env Input s).state.Map = s.Map ∧
    (resolveRoadErosion env Input s).state.Time = s.Time ∧
    (resolveRoadErosion env Input s).state.Options.MassWaste = s.Options.MassWaste ∧
    (resolveRoadErosion env Input s).state.Options.SurfaceErosion = s.Options.SurfaceErosion ∧
    (resolveRoadErosion env Input s).state.Options.ErosionPeriod = s.Options.ErosionPeriod := by
  unfold resolveRoadErosion ReportError
  simp only
  split_ifs <;> exact ⟨rfl, rfl, rfl, rfl, rfl, rfl⟩

theorem RoadCellAllocator_state (env : Collaborators) (s : State) :
    (RoadCellAllocator env s).state.Options = s.Options ∧
    (RoadCellAllocator env s).state.Map = s.Map ∧
    (RoadCellAllocator env s).state.Time = s.Time := by
  have h := RoadCellAllocator_frame env s
  simp only [roadFrame, Prod.mk.injEq] at h
  exact ⟨h.1, h.2.1, h.2.2.2.1⟩

theorem resolveChannelRouting_state (env : Collaborators) (Input : LISTPTR) (s : State) :
    (resolveChannelRouting env Input s).state.Network = s.Network ∧
    (resolveChannelRouting env Input s).state.Map = s.Map ∧
    (resolveChannelRouting env Input s).state.Time = s.Time ∧
    (resolveChannelRouting env Input s).state.Options.MassWaste = s.Options.MassWaste ∧
    (resolveChannelRouting env Input s).state.Options.SurfaceErosion = s.Options.SurfaceErosion ∧
    (resolveChannelRouting env Input s).state.Options.ErosionPeriod = s.Options.ErosionPeriod ∧
    (resolveChannelRouting env Input s).state.Options.RoadRouting = s.Options.RoadRouting := by
  unfold resolveChannelRouting ReportError
  split_ifs <;> exact ⟨rfl, rfl, rfl, rfl, rfl, rfl, rfl⟩

theorem deriveFineGrid_state (env : Collaborators) (Input : LISTPTR) (s : State) :
    (deriveFineGrid env Input s).state.Network = s.Network ∧
    (deriveFineGrid env Input s).state.Time = s.Time ∧
    (deriveFineGrid env Input s).state.Options = s.Options := by
  unfold deriveFineGrid ReportError
  split <;> exact ⟨rfl, rfl, rfl⟩

theorem readConstants_state (env : Collaborators) (Input : LISTPTR) (s : State) :
    (readConstants env Input s).state.Network = s.Network ∧
    (readConstants env Input s).state.Map = s.Map ∧
    (readConstants env Input s).state.Time = s.Time ∧
    (readConstants env Input s).state.Options = s.Options := by
  unfold readConstants ReportError
  repeat' split
  all_goals exact ⟨rfl, rfl, rfl, rfl⟩

theorem distributeDiams_state (env : Collaborators) (s : State) :
    (distributeDiams env s).state.Network = s.Network ∧
    (distributeDiams env s).state.Map = s.Map ∧
    (distributeDiams env s).state.Time = s.Time ∧
    (distributeDiams env s).state.Options = s.Options :=
  ⟨rfl, rfl, rfl, rfl⟩

theorem surfaceSedStage_state (env : Collaborators) (Input : LISTPTR) (s : State) :
    (surfaceSedStage env Input s).state.Network = s.Network ∧
    (surfaceSedStage env Input s).state.Map = s.Map ∧
    (surfaceSedStage env Input s).state.Options.MassWaste = s.Options.MassWaste ∧
    (surfaceSedStage env Input s).state.Options.SurfaceErosion = s.Options.SurfaceErosion ∧
    (surfaceSedStage env Input s).state.Options.ErosionPeriod = s.Options.ErosionPeriod ∧
    (surfaceSedStage env Input s).state.Options.RoadRouting = s.Options.RoadRouting ∧
    (surfaceSedStage env Input s).state.Options.ChannelRouting = s.Options.ChannelRouting := by
  unfold surfaceSedStage
  split
  · cases InitSurfaceSed env Input s.Time <;> exact ⟨rfl, rfl, rfl, rfl, rfl, rfl, rfl⟩
  · exact ⟨rfl, rfl, rfl, rfl, rfl, rfl, rfl⟩

/-! ## Stages that complete -/

theorem resolveMassWaste_completes {env : Collaborators} {Input : LISTPTR} (s : State)
    (h : ValidSwitch (VarStr env Input mass_wasting)) :
    ∃ s1, resolveMassWaste env Input s = Outcome.ok s1 := by
  rcases h with h | h
  · exact ⟨_, resolveMassWaste_TRUE s h⟩
  · exact ⟨_, resolveMassWaste_FALSE s h⟩

theorem resolveSurfaceErosion_completes {env : Collaborators} {Input : LISTPTR} (s : State)
    (h : ValidSwitch (VarStr env Input surface_erosion)) :
    ∃ s1, resolveSurfaceErosion env Input s = Outcome.ok s1 := by
  rcases h with h | h
  · exact ⟨_, resolveSurfaceErosion_TRUE s h⟩
  · exact ⟨_, resolveSurfaceErosion_FALSE s h⟩

theorem resolveRoadErosion_completes {env : Collaborators} {Input : LISTPTR} (s : State)
    (h : ValidSwitch (VarStr env Input road_erosion)) :
    ∃ s1, resolveRoadErosion env Input s = Outcome.ok s1 := by
  rcases h with h | h
  · exact ⟨_, resolveRoadErosion_TRUE s h⟩
  · exact ⟨_, resolveRoadErosion_FALSE s h⟩

theorem resolveChannelRouting_completes {env : Collaborators} {Input : LISTPTR} (s : State)
    (h : ValidSwitch (VarStr env Input channel_routing)) :
    ∃ s1, resolveChannelRouting env Input s = Outcome.ok s1 := by
  rcases h with h | h
  · exact ⟨_, resolveChannelRouting_TRUE s h⟩
  · exact ⟨_, resolveChannelRouting_FALSE s h⟩

/-- The final state of the stages from the channel routing switch on agrees
with the state before them on everything those five stages leave untouched. -/
theorem tail_state {α : Type} (env : Collaborators) (Input : LISTPTR) (π : State → α)
    (o : Outcome State)
    (h5 : ∀ s, π (resolveChannelRouting env Input s).state = π s)
    (h6 : ∀ s, π (deriveFineGrid env Input s).state = π s)
    (h7 : ∀ s, π (readConstants env Input s).state = π s)
    (h8 : ∀ s, π (distributeDiams env s).state = π s)
    (h9 : ∀ s, π (surfaceSedStage env Input s).state = π s) :
    π (((((o.andThen (resolveChannelRouting env Input)).andThen
      (deriveFineGrid env Input)).andThen (readConstants env Input)).andThen
      (distributeDiams env)).andThen (surfaceSedStage env Input)).state = π o.state :=
  (state_andThen π _ _ h9).trans ((state_andThen π _ _ h8).trans
    ((state_andThen π _ _ h7).trans ((state_andThen π _ _ h6).trans
      (state_andThen π _ _ h5))))

theorem tail_state_MassWaste (env : Collaborators) (Input : LISTPTR) (o : Outcome State) :
    (((((o.andThen (resolveChannelRouting env Input)).andThen
      (deriveFineGrid env Input)).andThen (readConstants env Input)).andThen
      (distributeDiams env)).andThen (surfaceSedStage env Input)).state.Options.MassWaste =
      o.state.Options.MassWaste :=
  tail_state env Input (fun s => s.Options.MassWaste) o
    (fun s => (resolveChannelRouting_state env Input s).2.2.2.1)
    (fun s => congrArg OPTIONSTRUCT.MassWaste (deriveFineGrid_state env Input s).2.2)
    (fun s => congrArg OPTIONSTRUCT.MassWaste (readConstants_state env Input s).2.2.2)
    (fun s => congrArg OPTIONSTRUCT.MassWaste (distributeDiams_state env s).2.2.2)
    (fun s => (surfaceSedStage_state env Input s).2.2.1)

theorem tail_state_SurfaceErosion (env : Collaborators) (Input : LISTPTR) (o : Outcome State) :
    (((((o.andThen (resolveChannelRouting env Input)).andThen
      (deriveFineGrid env Input)).andThen (readConstants env Input)).andThen
      (distributeDiams env)).andThen (surfaceSedStage env Input)).state.Options.SurfaceErosion =
      o.state.Options.SurfaceErosion :=
  tail_state env Input (fun s => s.Options.SurfaceErosion) o
    (fun s => (resolveChannelRouting_state env Input s).2.2.2.2.1)
    (fun s => congrArg OPTIONSTRUCT.SurfaceErosion (deriveFineGrid_state env Input s).2.2)
    (fun s => congrArg OPTIONSTRUCT.SurfaceErosion (readConstants_state env Input s).2.2.2)
    (fun s => congrArg OPTIONSTRUCT.SurfaceErosion (distributeDiams_state env s).2.2.2)
    (fun s => (surfaceSedStage_state env Input s).2.2.2.1)

theorem tail_state_ErosionPeriod (env : Collaborators) (Input : LISTPTR) (o : Outcome State) :
    (((((o.andThen (resolveChannelRouting env Input)).andThen
      (deriveFineGrid env Input)).andThen (readConstants env Input)).andThen
      (distributeDiams env)).andThen (surfaceSedStage env Input)).state.Options.ErosionPeriod =
      o.state.Options.ErosionPeriod :=
  tail_state env Input (fun s => s.Options.ErosionPeriod) o
    (fun s => (resolveChannelRouting_state env Input s).2.2.2.2.2.1)
    (fun s => congrArg OPTIONSTRUCT.ErosionPeriod (deriveFineGrid_state env Input s).2.2)
    (fun s => congrArg OPTIONSTRUCT.ErosionPeriod (readConstants_state env Input s).2.2.2)
    (fun s => congrArg OPTIONSTRUCT.ErosionPeriod (distributeDiams_state env s).2.2.2)
    (fun s => (surfaceSedStage_state env Input s).2.2.2.2.1)

theorem tail_state_RoadRouting (env : Collaborators) (Input : LISTPTR) (o : Outcome State) :
    (((((o.andThen (resolveChannelRouting env Input)).andThen
      (deriveFineGrid env Input)).andThen (readConstants env Input)).andThen
      (distributeDiams env)).andThen (surfaceSedStage env Input)).state.Options.RoadRouting =
      o.state.Options.RoadRouting :=
  tail_state env Input (fun s => s.Options.RoadRouting) o
    (fun s => (resolveChannelRouting_state env Input s).2.2.2.2.2.2)
    (fun s => congrArg OPTIONSTRUCT.RoadRouting (deriveFineGrid_state env Input s).2.2)
    (fun s => congrArg OPTIONSTRUCT.RoadRouting (readConstants_state env Input s).2.2.2)
    (fun s => congrArg OPTIONSTRUCT.RoadRouting (distributeDiams_state env s).2.2.2)
    (fun s => (surfaceSedStage_state env Input s).2.2.2.2.2.1)

theorem tail_state_Network (env : Collaborators) (Input : LISTPTR) (o : Outcome State) :
    (((((o.andThen (resolveChannelRouting env Input)).andThen
      (deriveFineGrid env Input)).andThen (readConstants env Input)).andThen
      (distributeDiams env)).andThen (surfaceSedStage env Input)).state.Network =
      o.state.Network :=
  tail_state env Input (fun s => s.Network) o
    (fun s => (resolveChannelRouting_state env Input s).1)
    (fun s => (deriveFineGrid_state env Input s).1)
    (fun s => (readConstants_state env Input s).1)
    (fun s => (distributeDiams_state env s).1)
    (fun s => (surfaceSedStage_state env Input s).1)

/-- The final `ChannelRouting` is the one the channel routing switch left. -/
theorem after_channel_state (env : Collaborators) (Input : LISTPTR) (o : Outcome State) :
    ((((o.andThen (deriveFineGrid env Input)).andThen (readConstants env Input)).andThen
      (distributeDiams env)).andThen (surfaceSedStage env Input)).state.Options.ChannelRouting =
      o.state.Options.ChannelRouting :=
  (state_andThen (fun s : State => s.Options.ChannelRouting) _ _
    (fun s => (surfaceSedStage_state env Input s).2.2.2.2.2.2)).trans
  ((state_andThen (fun s : State => s.Options.ChannelRouting) _ _
    (fun s => congrArg OPTIONSTRUCT.ChannelRouting (distributeDiams_state env s).2.2.2)).trans
  ((state_andThen (fun s : State => s.Options.ChannelRouting) _ _
    (fun s => congrArg OPTIONSTRUCT.ChannelRouting (readConstants_state env Input s).2.2.2)).trans
  (state_andThen (fun s : State => s.Options.ChannelRouting) _ _
    (fun s => congrArg OPTIONSTRUCT.ChannelRouting (deriveFineGrid_state env Input s).2.2))))
/-- Claim C3. For each of the four switches, in the order `InitParameters`
reads them and provided the switches before it resolve (and, for CHANNEL
ROUTING, that `calloc` can satisfy the road buffer requests): a value that
begins with "TRUE" sets the flag (for ROAD EROSION the requested `TRUE` is kept
exactly when a road network is loaded), a value that begins with "FALSE" clears
it, and any other value stops `InitParameters` with code 51 and the name of
that key. The flag is read in the state `InitParameters` ends in. -/
theorem InitParameters_switches (env : Collaborators) (Input : LISTPTR) (st : State) :
    ((BeginsWith (VarStr env Input mass_wasting) "TRUE" →
        (InitParameters env Input st).state.Options.MassWaste = true) ∧
      (BeginsWith (VarStr env Input mass_wasting) "FALSE" →
        (InitParameters env Input st).state.Options.MassWaste = false) ∧
      (¬ BeginsWith (VarStr env Input mass_wasting) "TRUE" →
        ¬ BeginsWith (VarStr env Input mass_wasting) "FALSE" →
        InitParameters env Input st = Outcome.fatal "MASS WASTING" 51 st)) ∧
    (ValidSwitch (VarStr env Input mass_wasting) →
      (BeginsWith (VarStr env Input surface_erosion) "TRUE" →
        (InitParameters env Input st).state.Options.SurfaceErosion = true) ∧
      (BeginsWith (VarStr env Input surface_erosion) "FALSE" →
        (InitParameters env Input st).state.Options.SurfaceErosion = false) ∧
      (¬ BeginsWith (VarStr env Input surface_erosion) "TRUE" →
        ¬ BeginsWith (VarStr env Input surface_erosion) "FALSE" →
        ∃ s, InitParameters env Input st = Outcome.fatal "SURFACE EROSION" 51 s)) ∧
    (ValidSwitch (VarStr env Input mass_wasting) →
      ValidSwitch (VarStr env Input surface_erosion) →
      (BeginsWith (VarStr env Input road_erosion) "TRUE" →
        (InitParameters env Input st).state.Options.RoadRouting =
          st.ChannelData.roads.isSome) ∧
      (BeginsWith (VarStr env Input road_erosion) "FALSE" →
        (InitParameters env Input st).state.Options.RoadRouting = false) ∧
      (¬ BeginsWith (VarStr env Input road_erosion) "TRUE" →
        ¬ BeginsWith (VarStr env Input road_erosion) "FALSE" →
        ∃ s, InitParameters env Input st = Outcome.fatal "ROAD EROSION" 51 s)) ∧
    (ValidSwitch (VarStr env Input mass_wasting) →
      ValidSwitch (VarStr env Input surface_erosion) →
      ValidSwitch (VarStr env Input road_erosion) →
      env.calloc env.CELLFACTOR = true →
      (BeginsWith (VarStr env Input channel_routing) "TRUE" →
        (InitParameters env Input st).state.Options.ChannelRouting = true) ∧
      (BeginsWith (VarStr env Input channel_routing) "FALSE" →
        (InitParameters env Input st).state.Options.ChannelRouting = false) ∧
      (¬ BeginsWith (VarStr env Input channel_routing) "TRUE" →
        ¬ BeginsWith (VarStr env Input channel_routing) "FALSE" →
        ∃ s, InitParameters env Input st = Outcome.fatal "CHANNEL ROUTING" 51 s)) := by
  have hmass : (InitParameters env Input st).state.Options.MassWaste =
      (resolveMassWaste env Input st).state.Options.MassWaste := by
    unfold InitParameters
    rw [tail_state_MassWaste]
    exact (state_andThen (fun s : State => s.Options.MassWaste) _ _
      (fun s => congrArg OPTIONSTRUCT.MassWaste (RoadCellAllocator_state env s).1)).trans
      ((state_andThen (fun s : State => s.Options.MassWaste) _ _
        (fun s => (resolveRoadErosion_state env Input s).2.2.2.1)).trans
        (state_andThen (fun s : State => s.Options.MassWaste) _ _
          (fun s => (resolveSurfaceErosion_state env Input s).2.2.2.2)))
  refine ⟨⟨?_, ?_, ?_⟩, ?_, ?_, ?_⟩
  · intro h
    rw [hmass, resolveMassWaste_TRUE st h]; rfl
  · intro h
    rw [hmass, resolveMassWaste_FALSE st h]; rfl
  · intro h1 h2
    have h : ¬ ValidSwitch (VarStr env Input mass_wasting) := fun h => h.elim h1 h2
    simp only [InitParameters, resolveMassWaste_other st h, andThen_fatal]
  · intro v0
    obtain ⟨s1, e1⟩ := resolveMassWaste_completes st v0
    have hsurf : (InitParameters env Input st).state.Options.SurfaceErosion =
        (resolveSurfaceErosion env Input s1).state.Options.SurfaceErosion := by
      simp only [InitParameters, e1, andThen_ok]
      rw [tail_state_SurfaceErosion]
      exact (state_andThen (fun s : State => s.Options.SurfaceErosion) _ _
        (fun s => congrArg OPTIONSTRUCT.SurfaceErosion (RoadCellAllocator_state env s).1)).trans
        (state_andThen (fun s : State => s.Options.SurfaceErosion) _ _
          (fun s => (resolveRoadErosion_state env Input s).2.2.2.2.1))
    refine ⟨?_, ?_, ?_⟩
    · intro h
      rw [hsurf, resolveSurfaceErosion_TRUE s1 h]; rfl
    · intro h
      rw [hsurf, resolveSurfaceErosion_FALSE s1 h]; rfl
    · intro h1 h2
      have h : ¬ ValidSwitch (VarStr env Input surface_erosion) := fun h => h.elim h1 h2
      exact ⟨s1, by
        simp only [InitParameters, e1, andThen_ok, resolveSurfaceErosion_other s1 h,
          andThen_fatal]⟩
  · intro v0 v1
    obtain ⟨s1, e1⟩ := resolveMassWaste_completes st v0
    obtain ⟨s2, e2⟩ := resolveSurfaceErosion_completes s1 v1
    have hc1 : s1.ChannelData = st.ChannelData := by
      rw [← state_of_eq_ok e1]; exact (resolveMassWaste_state env Input st).2.2.2
    have hc2 : s2.ChannelData = st.ChannelData := by
      rw [← state_of_eq_ok e2, ← hc1]; exact (resolveSurfaceErosion_state env Input s1).2.2.2.1
    have hroad : (InitParameters env Input st).state.Options.RoadRouting =
        (resolveRoadErosion env Input s2).state.Options.RoadRouting := by
      simp only [InitParameters, e1, e2, andThen_ok]
      rw [tail_state_RoadRouting]
      exact state_andThen (fun s : State => s.Options.RoadRouting) _ _
        (fun s => congrArg OPTIONSTRUCT.RoadRouting (RoadCellAllocator_state env s).1)
    refine ⟨?_, ?_, ?_⟩
    · intro h
      rw [hroad, resolveRoadErosion_TRUE s2 h, ← hc2]; rfl
    · intro h
      rw [hroad, resolveRoadErosion_FALSE s2 h]; rfl
    · intro h1 h2
      have h : ¬ ValidSwitch (VarStr env Input road_erosion) := fun h => h.elim h1 h2
      exact ⟨s2, by
        simp only [InitParameters, e1, e2, andThen_ok, resolveRoadErosion_other s2 h,
          andThen_fatal]⟩
  · intro v0 v1 v2 hc
    obtain ⟨s1, e1⟩ := resolveMassWaste_completes st v0
    obtain ⟨s2, e2⟩ := resolveSurfaceErosion_completes s1 v1
    obtain ⟨s3, e3⟩ := resolveRoadErosion_completes s2 v2
    obtain ⟨s4, e4⟩ := RoadCellAllocator_completes env s3 hc
    have hchan : (InitParameters env Input st).state.Options.ChannelRouting =
        (resolveChannelRouting env Input s4).state.Options.ChannelRouting := by
      simp only [InitParameters, e1, e2, e3, e4, andThen_ok]
      rw [after_channel_state]
    refine ⟨?_, ?_, ?_⟩
    · intro h
      rw [hchan, resolveChannelRouting_TRUE s4 h]; rfl
    · intro h
      rw [hchan, resolveChannelRouting_FALSE s4 h]; rfl
    · intro h1 h2
      have h : ¬ ValidSwitch (VarStr env Input channel_routing) := fun h => h.elim h1 h2
      exact ⟨s4, by
        simp only [InitParameters, e1, e2, e3, e4, andThen_ok,
          resolveChannelRouting_other s4 h, andThen_fatal]⟩

/-- Instances: the lower-case value "true" stops
with code 51 on MASS WASTING; with "TRUE", "FALSE", "TRUE" for the first three
switches the flags are set, cleared and (a road network being loaded) set, and
the empty CHANNEL ROUTING value stops with code 51 on that key. -/
theorem InitParameters_switches_witness :
    InitParameters sampleEnv lowerCaseInput scenario4State =
      Outcome.fatal "MASS WASTING" 51 scenario4State ∧
    (InitParameters sampleEnv threeSwitchInput scenario4State).state.Options.MassWaste = true ∧
    (InitParameters sampleEnv threeSwitchInput scenario4State).state.Options.SurfaceErosion
      = false ∧
    (InitParameters sampleEnv threeSwitchInput scenario4State).state.Options.RoadRouting
      = scenario4State.ChannelData.roads.isSome ∧
    ∃ s, InitParameters sampleEnv threeSwitchInput scenario4State =
      Outcome.fatal "CHANNEL ROUTING" 51 s :=
  ⟨(InitParameters_switches sampleEnv lowerCaseInput scenario4State).1.2.2
      (by decide) (by decide),
   (InitParameters_switches sampleEnv threeSwitchInput scenario4State).1.1 (by decide),
   ((InitParameters_switches sampleEnv threeSwitchInput scenario4State).2.1
      (by decide)).2.1 (by decide),
   ((InitParameters_switches sampleEnv threeSwitchInput scenario4State).2.2.1
      (by decide) (by decide)).1 (by decide),
   ((InitParameters_switches sampleEnv threeSwitchInput scenario4State).2.2.2
      (by decide) (by decide) (by decide) rfl).2.2 (by decide) (by decide)⟩

/-- Claim C4. When the ROAD EROSION value begins with "TRUE" and no road
network is loaded (`ChannelData->roads` is `NULL`): from every state, the road
erosion switch and the allocation stage after it complete without a fatal
error, leave `RoadRouting` false and change nothing else, so no cell receives
a buffer; and in a run whose first two switches resolve, the state
`InitParameters` ends in has `RoadRouting` false and the road network of
entry. -/
theorem InitParameters_road_without_network (env : Collaborators) (Input : LISTPTR) (st : State)
    (hT : BeginsWith (VarStr env Input road_erosion) "TRUE")
    (hr : st.ChannelData.roads = none) :
    (resolveRoadErosion env Input st).andThen (RoadCellAllocator env) =
      Outcome.ok { st with Options := { st.Options with RoadRouting := false } } ∧
    (ValidSwitch (VarStr env Input mass_wasting) →
      ValidSwitch (VarStr env Input surface_erosion) →
      (InitParameters env Input st).state.Options.RoadRouting = false ∧
      (InitParameters env Input st).state.Network = st.Network) := by
  have hstage : ∀ s : State, s.ChannelData.roads = none →
      (resolveRoadErosion env Input s).andThen (RoadCellAllocator env) =
        Outcome.ok { s with Options := { s.Options with RoadRouting := false } } := by
    intro s hs
    have e3 : resolveRoadErosion env Input s =
        Outcome.ok { s with Options := { s.Options with RoadRouting := false } } := by
      rw [resolveRoadErosion_TRUE s hT, hs]; rfl
    have e4 : RoadCellAllocator env { s with Options := { s.Options with RoadRouting := false } } =
        Outcome.ok { s with Options := { s.Options with RoadRouting := false } } := by
      simp [RoadCellAllocator]
    simp only [e3, andThen_ok, e4]
  refine ⟨hstage st hr, ?_⟩
  intro v0 v1
  obtain ⟨s1, e1⟩ := resolveMassWaste_completes st v0
  obtain ⟨s2, e2⟩ := resolveSurfaceErosion_completes s1 v1
  have hc1 : s1.ChannelData = st.ChannelData := by
    rw [← state_of_eq_ok e1]; exact (resolveMassWaste_state env Input st).2.2.2
  have hc2 : s2.ChannelData.roads = none := by
    rw [← state_of_eq_ok e2, (resolveSurfaceErosion_state env Input s1).2.2.2.1, hc1, hr]
  have hn1 : s1.Network = st.Network := by
    rw [← state_of_eq_ok e1]; exact (resolveMassWaste_state env Input st).1
  have hn2 : s2.Network = st.Network := by
    rw [← state_of_eq_ok e2, ← hn1]; exact (resolveSurfaceErosion_state env Input s1).1
  have hIP : InitParameters env Input st =
      ((((((resolveRoadErosion env Input s2).andThen (RoadCellAllocator env)).andThen
        (resolveChannelRouting env Input)).andThen
        (deriveFineGrid env Input)).andThen (readConstants env Input)).andThen
        (distributeDiams env)).andThen (surfaceSedStage env Input) := by
    simp only [InitParameters, e1, e2, andThen_ok]
  rw [hIP, tail_state_RoadRouting, tail_state_Network, hstage s2 hc2]
  exact ⟨rfl, hn2⟩

/-- An instance: ROAD EROSION is "TRUE" and no road network is loaded. -/
theorem InitParameters_road_without_network_witness :
    (BeginsWith (VarStr sampleEnv threeSwitchInput road_erosion) "TRUE" ∧
      noRoadsState.ChannelData.roads = none) ∧
    (resolveRoadErosion sampleEnv threeSwitchInput noRoadsState).andThen
        (RoadCellAllocator sampleEnv) =
      Outcome.ok { noRoadsState with
        Options := { noRoadsState.Options with RoadRouting := false } } ∧
    (InitParameters sampleEnv threeSwitchInput noRoadsState).state.Options.RoadRouting = false ∧
    (InitParameters sampleEnv threeSwitchInput noRoadsState).state.Network =
      noRoadsState.Network :=
  ⟨⟨by decide, rfl⟩,
   (InitParameters_road_without_network sampleEnv threeSwitchInput noRoadsState
      (by decide) rfl).1,
   (InitParameters_road_without_network sampleEnv threeSwitchInput noRoadsState
      (by decide) rfl).2 (by decide) (by decide)⟩

/-! ## Complete runs of `InitParameters` -/

/-- A completed run of `InitParameters` is a completed run of each of its nine
stages in turn. -/
theorem InitParameters_eq_ok {env : Collaborators} {Input : LISTPTR} {st sf : State}
    (h : InitParameters env Input st = Outcome.ok sf) :
    ∃ s1 s2 s3 s4 s5 s6 s7 s8,
      resolveMassWaste env Input st = Outcome.ok s1 ∧
      resolveSurfaceErosion env Input s1 = Outcome.ok s2 ∧
      resolveRoadErosion env Input s2 = Outcome.ok s3 ∧
      RoadCellAllocator env s3 = Outcome.ok s4 ∧
      resolveChannelRouting env Input s4 = Outcome.ok s5 ∧
      deriveFineGrid env Input s5 = Outcome.ok s6 ∧
      readConstants env Input s6 = Outcome.ok s7 ∧
      distributeDiams env s7 = Outcome.ok s8 ∧
      surfaceSedStage env Input s8 = Outcome.ok sf := by
  unfold InitParameters at h
  obtain ⟨s8, h8, e9⟩ := andThen_eq_ok h
  obtain ⟨s7, h7, e8⟩ := andThen_eq_ok h8
  obtain ⟨s6, h6, e7⟩ := andThen_eq_ok h7
  obtain ⟨s5, h5, e6⟩ := andThen_eq_ok h6
  obtain ⟨s4, h4, e5⟩ := andThen_eq_ok h5
  obtain ⟨s3, h3, e4⟩ := andThen_eq_ok h4
  obtain ⟨s2, h2, e3⟩ := andThen_eq_ok h3
  obtain ⟨s1, e1, e2⟩ := andThen_eq_ok h2
  exact ⟨s1, s2, s3, s4, s5, s6, s7, s8, e1, e2, e3, e4, e5, e6, e7, e8, e9⟩

theorem InitParameters_of_stages {env : Collaborators} {Input : LISTPTR}
    {st s1 s2 s3 s4 s5 s6 s7 s8 sf : State}
    (e1 : resolveMassWaste env Input st = Outcome.ok s1)
    (e2 : resolveSurfaceErosion env Input s1 = Outcome.ok s2)
    (e3 : resolveRoadErosion env Input s2 = Outcome.ok s3)
    (e4 : RoadCellAllocator env s3 = Outcome.ok s4)
    (e5 : resolveChannelRouting env Input s4 = Outcome.ok s5)
    (e6 : deriveFineGrid env Input s5 = Outcome.ok s6)
    (e7 : readConstants env Input s6 = Outcome.ok s7)
    (e8 : distributeDiams env s7 = Outcome.ok s8)
    (e9 : surfaceSedStage env Input s8 = Outcome.ok sf) :
    InitParameters env Input st = Outcome.ok sf := by
  simp only [InitParameters, e1, e2, e3, e4, e5, e6, e7, e8, e9, andThen_ok]

theorem deriveFineGrid_of_parse {env : Collaborators} {Input : LISTPTR} (s : State) {d : ℚ}
    (hd : env.CopyFloat (VarStr env Input mass_spacing) = some d) :
    deriveFineGrid env Input s = Outcome.ok { s with Map :=
      { s.Map with DMASS := d, NYfine := fineDim env s.Map.NY s.Map.DY d,
                   NXfine := fineDim env s.Map.NX s.Map.DY d, NumCellsfine := 0 } } := by
  simp [deriveFineGrid, hd]

theorem readConstants_completes {env : Collaborators} {Input : LISTPTR} (s : State)
    (h : NumericParametersParse env Input) : ∃ s1, readConstants env Input s = Outcome.ok s1 := by
  obtain ⟨_, h1, h2, h3, h4, h5⟩ := h
  obtain ⟨q1, e1⟩ := Option.isSome_iff_exists.1 h1
  obtain ⟨q2, e2⟩ := Option.isSome_iff_exists.1 h2
  obtain ⟨q3, e3⟩ := Option.isSome_iff_exists.1 h3
  obtain ⟨q4, e4⟩ := Option.isSome_iff_exists.1 h4
  obtain ⟨q5, e5⟩ := Option.isSome_iff_exists.1 h5
  simp only [readConstants, e1, e2, e3, e4, e5]
  exact ⟨_, rfl⟩

/-- What the last stage does when it completes: `InitSedFlag` takes the value
of `SurfaceErosion`, and the schedule is the result of `InitSurfaceSed` when
`SurfaceErosion` is set and untouched otherwise. -/
theorem surfaceSedStage_eq_ok {env : Collaborators} {Input : LISTPTR} {s sf : State}
    (h : surfaceSedStage env Input s = Outcome.ok sf) :
    sf.Options.InitSedFlag = s.Options.SurfaceErosion ∧
    (s.Options.SurfaceErosion = true → InitSurfaceSed env Input s.Time = Outcome.ok sf.Time) ∧
    (s.Options.SurfaceErosion = false → sf.Time = s.Time) := by
  unfold surfaceSedStage at h
  cases hse : s.Options.SurfaceErosion with
  | false =>
    simp only [hse, Bool.false_eq_true, if_false, andThen_ok] at h
    injection h with h
    subst h
    exact ⟨by simp [hse], by simp, fun _ => rfl⟩
  | true =>
    simp only [hse, if_true] at h
    cases hT : InitSurfaceSed env Input s.Time with
    | fatal k c T => simp [hT, Outcome.lift] at h
    | ok T =>
      simp only [hT, Outcome.lift, andThen_ok] at h
      injection h with h
      subst h
      exact ⟨by simp [hse], fun _ => rfl, by simp⟩

theorem surfaceSedStage_completes {env : Collaborators} {Input : LISTPTR} (s : State)
    (h : s.Options.SurfaceErosion = true → ∃ T, InitSurfaceSed env Input s.Time = Outcome.ok T) :
    ∃ sf, surfaceSedStage env Input s = Outcome.ok sf := by
  unfold surfaceSedStage
  cases hse : s.Options.SurfaceErosion with
  | false =>
    simp only [Bool.false_eq_true, if_false, andThen_ok]
    exact ⟨_, rfl⟩
  | true =>
    obtain ⟨T, hT⟩ := h hse
    simp only [if_true, hT, Outcome.lift, andThen_ok]
    exact ⟨_, rfl⟩

/-- The fields of a completed run that the stages hand through: the coarse
grid, the schedule on entry to the last stage, and the three surface erosion
flags. -/
theorem InitParameters_ok_fields {env : Collaborators} {Input : LISTPTR} {st sf : State}
    (h : InitParameters env Input st = Outcome.ok sf) :
    ∃ s1 s5 s8, resolveMassWaste env Input st = Outcome.ok s1 ∧
      (∃ s2, resolveSurfaceErosion env Input s1 = Outcome.ok s2 ∧
        s8.Options.SurfaceErosion = s2.Options.SurfaceErosion ∧
        s8.Options.ErosionPeriod = s2.Options.ErosionPeriod) ∧
      s5.Map = st.Map ∧
      (∃ s6, deriveFineGrid env Input s5 = Outcome.ok s6 ∧ sf.Map = s6.Map) ∧
      s8.Time = st.Time ∧
      surfaceSedStage env Input s8 = Outcome.ok sf ∧
      sf.Options.SurfaceErosion = s8.Options.SurfaceErosion ∧
      sf.Options.ErosionPeriod = s8.Options.ErosionPeriod := by
  obtain ⟨s1, s2, s3, s4, s5, s6, s7, s8, e1, e2, e3, e4, e5, e6, e7, e8, e9⟩ :=
    InitParameters_eq_ok h
  have a1 := resolveMassWaste_state env Input st
  have a2 := resolveSurfaceErosion_state env Input s1
  have a3 := resolveRoadErosion_state env Input s2
  have a4 := RoadCellAllocator_state env s3
  have a5 := resolveChannelRouting_state env Input s4
  have a6 := deriveFineGrid_state env Input s5
  have a7 := readConstants_state env Input s6
  have a8 := distributeDiams_state env s7
  have a9 := surfaceSedStage_state env Input s8
  rw [state_of_eq_ok e1] at a1
  rw [state_of_eq_ok e2] at a2
  rw [state_of_eq_ok e3] at a3
  rw [state_of_eq_ok e4] at a4
  rw [state_of_eq_ok e5] at a5
  rw [state_of_eq_ok e6] at a6
  rw [state_of_eq_ok e7] at a7
  rw [state_of_eq_ok e8] at a8
  rw [state_of_eq_ok e9] at a9
  refine ⟨s1, s5, s8, e1, ⟨s2, e2, ?_, ?_⟩, ?_, ⟨s6, e6, ?_⟩, ?_, e9, a9.2.2.2.1, a9.2.2.2.2.1⟩
  · rw [a8.2.2.2, a7.2.2.2, a6.2.2, a5.2.2.2.2.1, a4.1, a3.2.2.2.2.1]
  · rw [a8.2.2.2, a7.2.2.2, a6.2.2, a5.2.2.2.2.2.1, a4.1, a3.2.2.2.2.2]
  · rw [a5.2.1, a4.2.1, a3.2.1, a2.2.1, a1.2.1]
  · rw [a9.2.1, a8.2.1, a7.2.1]
  · rw [a8.2.2.1, a7.2.2.1, a6.2.1, a5.2.2.1, a4.2.2, a3.2.2.1, a2.2.2.1, a1.2.2.1]

/-- A run of `InitParameters` completes when the four switches resolve, the six
numeric parameters parse, `calloc` can satisfy the road buffer requests and,
should SURFACE EROSION begin with "TRUE", `InitSurfaceSed` completes on the
schedule of entry. -/
theorem InitParameters_completes {env : Collaborators} {Input : LISTPTR} (st : State)
    (v0 : ValidSwitch (VarStr env Input mass_wasting))
    (v1 : ValidSwitch (VarStr env Input surface_erosion))
    (v2 : ValidSwitch (VarStr env Input road_erosion))
    (v3 : ValidSwitch (VarStr env Input channel_routing))
    (hc : env.calloc env.CELLFACTOR = true)
    (hp : NumericParametersParse env Input)
    (hsed : BeginsWith (VarStr env Input surface_erosion) "TRUE" →
      ∃ T, InitSurfaceSed env Input st.Time = Outcome.ok T) :
    ∃ sf, InitParameters env Input st = Outcome.ok sf := by
  obtain ⟨s1, e1⟩ := resolveMassWaste_completes st v0
  obtain ⟨s2, e2⟩ := resolveSurfaceErosion_completes s1 v1
  obtain ⟨s3, e3⟩ := resolveRoadErosion_completes s2 v2
  obtain ⟨s4, e4⟩ := RoadCellAllocator_completes env s3 hc
  obtain ⟨s5, e5⟩ := resolveChannelRouting_completes s4 v3
  obtain ⟨d, hd⟩ := Option.isSome_iff_exists.1 hp.1
  obtain ⟨s6, e6⟩ : ∃ s6, deriveFineGrid env Input s5 = Outcome.ok s6 :=
    ⟨_, deriveFineGrid_of_parse s5 hd⟩
  obtain ⟨s7, e7⟩ := readConstants_completes s6 hp
  have e8 : distributeDiams env s7 = Outcome.ok _ := rfl
  have a1 := resolveMassWaste_state env Input st
  have a2 := resolveSurfaceErosion_state env Input s1
  have a3 := resolveRoadErosion_state env Input s2
  have a4 := RoadCellAllocator_state env s3
  have a5 := resolveChannelRouting_state env Input s4
  have a6 := deriveFineGrid_state env Input s5
  have a7 := readConstants_state env Input s6
  rw [state_of_eq_ok e6] at a6
  rw [state_of_eq_ok e1] at a1
  rw [state_of_eq_ok e2] at a2
  rw [state_of_eq_ok e3] at a3
  rw [state_of_eq_ok e4] at a4
  rw [state_of_eq_ok e5] at a5
  rw [state_of_eq_ok e7] at a7
  obtain ⟨sf, e9⟩ := @surfaceSedStage_completes env Input
    { s7 with SedDiams :=
      env.DistributeSedimentDiams s7.CHANNELd50 s7.CHANNELd90 s7.DEBRISd50 s7.DEBRISd90 }
    (by
      intro hse
      have hT : s7.Time = st.Time := by
        rw [a7.2.2.1, a6.2.1, a5.2.2.1, a4.2.2, a3.2.2.1, a2.2.2.1, a1.2.2.1]
      have hS : s7.Options.SurfaceErosion = s2.Options.SurfaceErosion := by
        rw [a7.2.2.2, a6.2.2, a5.2.2.2.2.1, a4.1, a3.2.2.2.2.1]
      have hse7 : s7.Options.SurfaceErosion = true := hse
      rw [hS] at hse7
      have hTRUE : BeginsWith (VarStr env Input surface_erosion) "TRUE" := by
        by_contra hn
        rcases v1 with v1 | v1
        · exact hn v1
        · rw [resolveSurfaceErosion_FALSE s1 v1] at e2
          injection e2 with e2
          rw [← e2] at hse7
          simp at hse7
      obtain ⟨T, hT1⟩ := hsed hTRUE
      exact ⟨T, by show InitSurfaceSed env Input s7.Time = Outcome.ok T; rw [hT]; exact hT1⟩)
  exact ⟨sf, InitParameters_of_stages e1 e2 e3 e4 e5 e6 e7 e8 e9⟩

/-! ## The fine grid -/

theorem roundNearestEven_bounds (r : ℚ) :
    ⌊r⌋ ≤ roundNearestEven r ∧ roundNearestEven r ≤ ⌊r⌋ + 1 := by
  unfold roundNearestEven
  split_ifs <;> constructor <;> omega

theorem roundNearestEven_intCast (n : Int) : roundNearestEven (n : ℚ) = n := by
  unfold roundNearestEven
  simp

theorem roundNearestEven_mono {r s : ℚ} (h : r ≤ s) :
    roundNearestEven r ≤ roundNearestEven s := by
  have hf : ⌊r⌋ ≤ ⌊s⌋ := Int.floor_mono h
  rcases lt_or_eq_of_le hf with hlt | heq
  · have h1 := (roundNearestEven_bounds r).2
    have h2 := (roundNearestEven_bounds s).1
    omega
  · unfold roundNearestEven
    rw [← heq]
    have hrs : r - ⌊r⌋ ≤ s - ⌊r⌋ := by linarith
    split_ifs <;> first | omega | (exfalso; linarith)

theorem roundNearestEven_eq_of_abs_lt {r : ℚ} {m : Int} (h : |r - m| < 1 / 2) :
    roundNearestEven r = m := by
  rw [abs_lt] at h
  obtain ⟨h1, h2⟩ := h
  by_cases hm : (m : ℚ) ≤ r
  · have hfl : ⌊r⌋ = m := by
      rw [Int.floor_eq_iff]; constructor <;> linarith
    unfold roundNearestEven
    rw [hfl, if_pos (by linarith)]
  · have hfl : ⌊r⌋ = m - 1 := by
      rw [Int.floor_eq_iff]; push_cast; constructor <;> linarith
    unfold roundNearestEven
    rw [hfl]
    push_cast
    rw [if_neg (by linarith), if_pos (by linarith)]
    omega

theorem floatExponent_eq {q : ℚ} {e : Int} (h1 : (2 : ℚ) ^ e ≤ q) (h2 : q < (2 : ℚ) ^ (e + 1))
    (he : -126 ≤ e) : floatExponent q = e := by
  have hq : 0 < q := lt_of_lt_of_le (by positivity) h1
  have a : e ≤ Int.log 2 q := by
    rw [← Int.zpow_le_iff_le_log (by norm_num) hq]; simpa using h1
  have b : Int.log 2 q < e + 1 := by
    rw [← Int.lt_zpow_iff_log_lt (by norm_num) hq]; simpa using h2
  unfold floatExponent
  omega

theorem roundFloat_eq {q : ℚ} {e m : Int} (h1 : (2 : ℚ) ^ e ≤ q) (h2 : q < (2 : ℚ) ^ (e + 1))
    (he : -126 ≤ e) (hm : |q / (2 : ℚ) ^ (e - 23) - m| < 1 / 2) :
    roundFloat q = (m : ℚ) * (2 : ℚ) ^ (e - 23) := by
  have hq : 0 < q := lt_of_lt_of_le (by positivity) h1
  unfold roundFloat ulp
  rw [if_neg (not_lt.2 hq.le), floatExponent_eq h1 h2 he, roundNearestEven_eq_of_abs_lt hm]


theorem ulp_pos (q : ℚ) : 0 < ulp q := by
  unfold ulp; positivity

theorem roundFloat_of_nonneg {q : ℚ} (h : 0 ≤ q) :
    roundFloat q = (roundNearestEven (q / ulp q) : ℚ) * ulp q := by
  unfold roundFloat
  rw [if_neg (not_lt.2 h)]

theorem roundFloat_nonneg {q : ℚ} (h : 0 ≤ q) : 0 ≤ roundFloat q := by
  rw [roundFloat_of_nonneg h]
  have h1 : (0 : ℚ) ≤ q / ulp q := div_nonneg h (ulp_pos q).le
  have h2 : roundNearestEven ((0 : Int) : ℚ) ≤ roundNearestEven (q / ulp q) :=
    roundNearestEven_mono (by simpa using h1)
  rw [roundNearestEven_intCast] at h2
  exact mul_nonneg (by exact_mod_cast h2) (ulp_pos q).le

theorem two_zpow_split (a : Int) (k : Int) :
    (2 : ℚ) ^ a = (2 : ℚ) ^ k * (2 : ℚ) ^ (a - k) := by
  rw [← zpow_add₀ (two_ne_zero)]
  congr 1
  ring

theorem roundFloat_le_zpow {x : ℚ} (hx : 0 < x) :
    roundFloat x ≤ (2 : ℚ) ^ (floatExponent x + 1) := by
  rw [roundFloat_of_nonneg hx.le]
  have hlt : x < (2 : ℚ) ^ (Int.log 2 x + 1) := by
    simpa using Int.lt_zpow_succ_log_self (R := ℚ) (b := 2) (by norm_num) x
  have hle : (2 : ℚ) ^ (Int.log 2 x + 1) ≤ (2 : ℚ) ^ (floatExponent x + 1) := by
    apply zpow_le_zpow_right₀ (by norm_num)
    unfold floatExponent
    omega
  have hsplit := two_zpow_split (floatExponent x + 1) 24
  have hu : (2 : ℚ) ^ (floatExponent x + 1 - 24) = ulp x := by
    unfold ulp; congr 1; ring
  rw [hu] at hsplit
  have h24 : (2 : ℚ) ^ (24 : Int) = 16777216 := by norm_num
  rw [h24] at hsplit
  have hdiv : x / ulp x ≤ ((16777216 : Int) : ℚ) := by
    rw [div_le_iff₀ (ulp_pos x)]
    push_cast
    rw [← hsplit]
    exact (hlt.le).trans hle
  have hr := roundNearestEven_mono hdiv
  rw [roundNearestEven_intCast] at hr
  have hr2 : (roundNearestEven (x / ulp x) : ℚ) ≤ 16777216 := by exact_mod_cast hr
  rw [hsplit]
  exact mul_le_mul_of_nonneg_right hr2 (ulp_pos x).le

theorem zpow_le_roundFloat {y : ℚ} (hy : 0 < y) (he : floatExponent y = Int.log 2 y) :
    (2 : ℚ) ^ floatExponent y ≤ roundFloat y := by
  rw [roundFloat_of_nonneg hy.le]
  have hle : (2 : ℚ) ^ floatExponent y ≤ y := by
    rw [he]
    simpa using Int.zpow_log_le_self (R := ℚ) (b := 2) (by norm_num) hy
  have hsplit := two_zpow_split (floatExponent y) 23
  have hu : (2 : ℚ) ^ (floatExponent y - 23) = ulp y := rfl
  rw [hu] at hsplit
  have h23 : (2 : ℚ) ^ (23 : Int) = 8388608 := by norm_num
  rw [h23] at hsplit
  have hdiv : ((8388608 : Int) : ℚ) ≤ y / ulp y := by
    rw [le_div_iff₀ (ulp_pos y)]
    push_cast
    rw [← hsplit]
    exact hle
  have hr := roundNearestEven_mono hdiv
  rw [roundNearestEven_intCast] at hr
  have hr2 : (8388608 : ℚ) ≤ (roundNearestEven (y / ulp y) : ℚ) := by exact_mod_cast hr
  rw [hsplit]
  exact mul_le_mul_of_nonneg_right hr2 (ulp_pos y).le

/-- Rounding to single precision is monotone on the non-negative rationals. -/
theorem roundFloat_mono {x y : ℚ} (hx : 0 ≤ x) (hxy : x ≤ y) : roundFloat x ≤ roundFloat y := by
  rcases eq_or_lt_of_le hx with h0 | hpos
  · have hz : roundFloat x = 0 := by
      rw [← h0, roundFloat_of_nonneg (le_refl 0)]
      simp [roundNearestEven]
    rw [hz]
    exact roundFloat_nonneg (hx.trans hxy)
  · have hy : 0 < y := lt_of_lt_of_le hpos hxy
    have hlog : Int.log 2 x ≤ Int.log 2 y := Int.log_mono_right hpos hxy
    have hexp : floatExponent x ≤ floatExponent y := by
      unfold floatExponent; omega
    rcases eq_or_lt_of_le hexp with heq | hlt
    · have hu : ulp x = ulp y := by unfold ulp; rw [heq]
      rw [roundFloat_of_nonneg hx, roundFloat_of_nonneg hy.le, hu]
      have hdiv : x / ulp y ≤ y / ulp y := div_le_div_of_nonneg_right hxy (ulp_pos y).le
      have hr := roundNearestEven_mono hdiv
      exact mul_le_mul_of_nonneg_right (by exact_mod_cast hr) (ulp_pos y).le
    · have he : floatExponent y = Int.log 2 y := by
        unfold floatExponent at hlt ⊢; omega
      calc roundFloat x ≤ (2 : ℚ) ^ (floatExponent x + 1) := roundFloat_le_zpow hpos
        _ ≤ (2 : ℚ) ^ floatExponent y := zpow_le_zpow_right₀ (by norm_num) (by omega)
        _ ≤ roundFloat y := zpow_le_roundFloat hy he


/-- The fine grid of a completed run: lines 154-156 applied to the coarse grid
of entry and the parsed spacing. -/
theorem InitParameters_ok_fineDim {env : Collaborators} {Input : LISTPTR} {st sf : State} {d : ℚ}
    (hd : env.CopyFloat (VarStr env Input mass_spacing) = some d)
    (h : InitParameters env Input st = Outcome.ok sf) :
    sf.Map.NXfine = fineDim env st.Map.NX st.Map.DY d ∧
    sf.Map.NYfine = fineDim env st.Map.NY st.Map.DY d ∧
    sf.Map.NumCellsfine = 0 ∧ sf.Map.DMASS = d := by
  obtain ⟨s1, s5, s8, _, _, hM5, ⟨s6, e6, hM6⟩, _⟩ := InitParameters_ok_fields h
  rw [deriveFineGrid_of_parse s5 hd] at e6
  injection e6 with e6
  rw [hM6, ← e6, ← hM5]
  exact ⟨rfl, rfl, rfl, rfl⟩

theorem floatQuotient_nonneg {DY d : ℚ} (hDY : 0 ≤ DY) (hd : 0 < d) :
    0 ≤ floatQuotient DY d :=
  roundFloat_nonneg (div_nonneg hDY hd.le)

theorem floatProduct_nonneg {N : Int} {DY d : ℚ} (hN : 0 ≤ N) (hDY : 0 ≤ DY) (hd : 0 < d) :
    0 ≤ floatProduct N DY d :=
  roundFloat_nonneg (mul_nonneg (roundFloat_nonneg (Int.cast_nonneg.2 hN))
    (floatQuotient_nonneg hDY hd))

/-- On non-negative data the stored value, when the store is defined, is the
floor of the single precision product. -/
theorem fineDim_of_defined (env : Collaborators) {N : Int} {DY d : ℚ}
    (hN : 0 ≤ N) (hDY : 0 ≤ DY) (hd : 0 < d) (hdef : FineDimDefined N DY d) :
    fineDim env N DY d = ⌊floatProduct N DY d⌋ := by
  unfold fineDim
  rw [if_pos hdef, if_pos (floatProduct_nonneg hN hDY hd)]

/-- When every step of `N * (DY / DMASS)` is exact in single precision and the
result fits, the stored value is the floor of the exact quotient. -/
theorem fineDim_exact (env : Collaborators) {N : Int} {DY d : ℚ}
    (hN : 0 ≤ N) (hDY : 0 ≤ DY) (hd : 0 < d)
    (e1 : roundFloat (N : ℚ) = N) (e2 : roundFloat (DY / d) = DY / d)
    (e3 : roundFloat ((N : ℚ) * (DY / d)) = (N : ℚ) * (DY / d))
    (hq : DY / d < 2 ^ 128) (hp : (N : ℚ) * DY / d < 2147483648) :
    fineDim env N DY d = ⌊(N : ℚ) * DY / d⌋ := by
  have hprod : floatProduct N DY d = (N : ℚ) * DY / d := by
    unfold floatProduct floatQuotient
    rw [e2, e1, e3, mul_div_assoc]
  have hq0 : 0 ≤ DY / d := div_nonneg hDY hd.le
  have hdef : FineDimDefined N DY d := by
    refine ⟨hd.ne', ?_, ?_, ?_⟩
    · unfold floatQuotient
      rw [e2, abs_of_nonneg hq0]
      exact hq
    · rw [hprod]
      have : 0 ≤ (N : ℚ) * DY / d :=
        div_nonneg (mul_nonneg (Int.cast_nonneg.2 hN) hDY) hd.le
      linarith
    · rw [hprod]; exact hp
  rw [fineDim_of_defined env hN hDY hd hdef, hprod]

/-- The store stays defined, and the stored value does not grow, when the
spacing grows. -/
theorem fineDim_antitone (env : Collaborators) {N : Int} {DY d1 d2 : ℚ}
    (hN : 0 ≤ N) (hDY : 0 ≤ DY) (hd1 : 0 < d1) (hlt : d1 < d2)
    (hdef : FineDimDefined N DY d1) :
    FineDimDefined N DY d2 ∧ fineDim env N DY d2 ≤ fineDim env N DY d1 := by
  have hd2 : 0 < d2 := lt_trans hd1 hlt
  have hq : floatQuotient DY d2 ≤ floatQuotient DY d1 :=
    roundFloat_mono (div_nonneg hDY hd2.le) (div_le_div_of_nonneg_left hDY hd1 hlt.le)
  have hq2 : 0 ≤ floatQuotient DY d2 := floatQuotient_nonneg hDY hd2
  have hfN : 0 ≤ roundFloat (N : ℚ) := roundFloat_nonneg (Int.cast_nonneg.2 hN)
  have hp : floatProduct N DY d2 ≤ floatProduct N DY d1 :=
    roundFloat_mono (mul_nonneg hfN hq2) (mul_le_mul_of_nonneg_left hq hfN)
  have hp2 : 0 ≤ floatProduct N DY d2 := floatProduct_nonneg hN hDY hd2
  obtain ⟨_, b1, _, b3⟩ := hdef
  have hdef2 : FineDimDefined N DY d2 := by
    refine ⟨hd2.ne', ?_, by linarith, by linarith⟩
    rw [abs_of_nonneg hq2]
    exact lt_of_le_of_lt (hq.trans (le_abs_self _)) b1
  refine ⟨hdef2, ?_⟩
  rw [fineDim_of_defined env hN hDY hd2 hdef2,
    fineDim_of_defined env hN hDY hd1 ⟨hd1.ne', b1, by assumption, b3⟩]
  exact Int.floor_mono hp

/-- Evaluation of the stored value from the two rounded intermediate floats. -/
theorem fineDim_eval (env : Collaborators) {N : Int} {DY d q p : ℚ} {n : Int}
    (hd : d ≠ 0) (hq : roundFloat (DY / d) = q) (hq2 : |q| < 2 ^ 128)
    (hp : roundFloat (roundFloat (N : ℚ) * q) = p) (hp0 : 0 ≤ p) (hp1 : p < 2147483648)
    (hn : ⌊p⌋ = n) : FineDimDefined N DY d ∧ fineDim env N DY d = n := by
  have hprod : floatProduct N DY d = p := by
    unfold floatProduct floatQuotient; rw [hq, hp]
  have hdef : FineDimDefined N DY d := by
    refine ⟨hd, ?_, ?_, ?_⟩
    · unfold floatQuotient; rw [hq]; exact hq2
    · rw [hprod]; linarith
    · rw [hprod]; exact hp1
  refine ⟨hdef, ?_⟩
  unfold fineDim
  rw [if_pos hdef, hprod, if_pos hp0, hn]

theorem roundFloat_3 : roundFloat 3 = 3 := by
  rw [roundFloat_eq (e := 1) (m := 12582912) (by norm_num) (by norm_num) (by norm_num)
    (by norm_num [abs_lt])]
  norm_num

theorem roundFloat_7 : roundFloat 7 = 7 := by
  rw [roundFloat_eq (e := 2) (m := 14680064) (by norm_num) (by norm_num) (by norm_num)
    (by norm_num [abs_lt])]
  norm_num

theorem roundFloat_9 : roundFloat 9 = 9 := by
  rw [roundFloat_eq (e := 3) (m := 9437184) (by norm_num) (by norm_num) (by norm_num)
    (by norm_num [abs_lt])]
  norm_num

/-- In single precision 31 / 7 is 9287387 / 2 ^ 21, below the exact quotient. -/
theorem roundFloat_31_div_7 : roundFloat (31 / 7) = 9287387 / 2097152 := by
  rw [roundFloat_eq (e := 2) (m := 9287387) (by norm_num) (by norm_num) (by norm_num)
    (by norm_num [abs_lt])]
  norm_num

/-- In single precision 7 times the float 31 / 7 is 16252927 / 2 ^ 19, the
float just below 31. -/
theorem roundFloat_7_mul : roundFloat (7 * (9287387 / 2097152)) = 16252927 / 524288 := by
  rw [roundFloat_eq (e := 4) (m := 16252927) (by norm_num) (by norm_num) (by norm_num)
    (by norm_num [abs_lt])]
  norm_num

theorem fineDim_7_31_7 (env : Collaborators) :
    FineDimDefined 7 31 7 ∧ fineDim env 7 31 7 = 30 := by
  refine fineDim_eval env (q := 9287387 / 2097152) (p := 16252927 / 524288) (by norm_num)
    roundFloat_31_div_7 (by norm_num [abs_lt]) ?_ (by norm_num) (by norm_num) ?_
  · have h7 : ((7 : Int) : ℚ) = 7 := by norm_num
    rw [h7, roundFloat_7, roundFloat_7_mul]
  · rw [Int.floor_eq_iff]; norm_num

theorem fineDim_3_30_40 (env : Collaborators) :
    FineDimDefined 3 30 40 ∧ fineDim env 3 30 40 = 2 := by
  have hq : roundFloat (30 / 40) = 3 / 4 := by
    rw [roundFloat_eq (e := -1) (m := 12582912) (by norm_num) (by norm_num) (by norm_num)
      (by norm_num [abs_lt])]
    norm_num
  have hp : roundFloat (3 * (3 / 4)) = 9 / 4 := by
    rw [roundFloat_eq (e := 1) (m := 9437184) (by norm_num) (by norm_num) (by norm_num)
      (by norm_num [abs_lt])]
    norm_num
  refine fineDim_eval env (q := 3 / 4) (p := 9 / 4) (by norm_num) hq (by norm_num [abs_lt]) ?_
    (by norm_num) (by norm_num) ?_
  · have h3 : ((3 : Int) : ℚ) = 3 := by norm_num
    rw [h3, roundFloat_3, hp]
  · rw [Int.floor_eq_iff]; norm_num

theorem fineDim_3_30_45 (env : Collaborators) :
    FineDimDefined 3 30 45 ∧ fineDim env 3 30 45 = 2 := by
  have hq : roundFloat (30 / 45) = 11184811 / 16777216 := by
    rw [roundFloat_eq (e := -1) (m := 11184811) (by norm_num) (by norm_num) (by norm_num)
      (by norm_num [abs_lt])]
    norm_num
  have hp : roundFloat (3 * (11184811 / 16777216)) = 2 := by
    rw [roundFloat_eq (e := 1) (m := 8388608) (by norm_num) (by norm_num) (by norm_num)
      (by norm_num [abs_lt])]
    norm_num
  refine fineDim_eval env (q := 11184811 / 16777216) (p := 2) (by norm_num) hq
    (by norm_num [abs_lt]) ?_ (by norm_num) (by norm_num) ?_
  · have h3 : ((3 : Int) : ℚ) = 3 := by norm_num
    rw [h3, roundFloat_3, hp]
  · rw [Int.floor_eq_iff]; norm_num

theorem sampleCopyFloat_7 :
    sampleEnv.CopyFloat (VarStr sampleEnv (scenario1Input "7") mass_spacing) = some 7 := by
  have h : sampleCopyInt (VarStr sampleEnv (scenario1Input "7") mass_spacing) = some 7 := by
    decide
  show sampleCopyFloat (VarStr sampleEnv (scenario1Input "7") mass_spacing) = some 7
  simp [sampleCopyFloat, h]

theorem sampleCopyFloat_10 :
    sampleEnv.CopyFloat (VarStr sampleEnv (scenario1Input "10") mass_spacing) = some 10 := by
  have h : sampleCopyInt (VarStr sampleEnv (scenario1Input "10") mass_spacing) = some 10 := by
    decide
  show sampleCopyFloat (VarStr sampleEnv (scenario1Input "10") mass_spacing) = some 10
  simp [sampleCopyFloat, h]

theorem sampleCopyFloat_40 :
    sampleEnv.CopyFloat (VarStr sampleEnv (scenario1Input "40") mass_spacing) = some 40 := by
  have h : sampleCopyInt (VarStr sampleEnv (scenario1Input "40") mass_spacing) = some 40 := by
    decide
  show sampleCopyFloat (VarStr sampleEnv (scenario1Input "40") mass_spacing) = some 40
  simp [sampleCopyFloat, h]

theorem sampleCopyFloat_45 :
    sampleEnv.CopyFloat (VarStr sampleEnv (scenario1Input "45") mass_spacing) = some 45 := by
  have h : sampleCopyInt (VarStr sampleEnv (scenario1Input "45") mass_spacing) = some 45 := by
    decide
  show sampleCopyFloat (VarStr sampleEnv (scenario1Input "45") mass_spacing) = some 45
  simp [sampleCopyFloat, h]

theorem scenario1_completes_7 (st : State) :
    ∃ sf, InitParameters sampleEnv (scenario1Input "7") st = Outcome.ok sf :=
  InitParameters_completes st (by decide) (by decide) (by decide) (by decide) rfl (by decide)
    (fun h => absurd h (by decide))

theorem scenario1_completes_10 (st : State) :
    ∃ sf, InitParameters sampleEnv (scenario1Input "10") st = Outcome.ok sf :=
  InitParameters_completes st (by decide) (by decide) (by decide) (by decide) rfl (by decide)
    (fun h => absurd h (by decide))

theorem scenario1_completes_40 (st : State) :
    ∃ sf, InitParameters sampleEnv (scenario1Input "40") st = Outcome.ok sf :=
  InitParameters_completes st (by decide) (by decide) (by decide) (by decide) rfl (by decide)
    (fun h => absurd h (by decide))

theorem scenario1_completes_45 (st : State) :
    ∃ sf, InitParameters sampleEnv (scenario1Input "45") st = Outcome.ok sf :=
  InitParameters_completes st (by decide) (by decide) (by decide) (by decide) rfl (by decide)
    (fun h => absurd h (by decide))

/-- Claim C7, as amended. On a coarse grid with `NX ≥ 0`, `NY ≥ 0`, `DY ≥ 0` and
a parsed spacing `DMASS > 0`, a completed `InitParameters` leaves
`NumCellsfine = 0`; where the store into the `int` is defined (the single
precision quotient `DY / DMASS` is finite and the product fits in 32 bits),
`NXfine` and `NYfine` are the floors of the single precision products
`NX * (DY / DMASS)` and `NY * (DY / DMASS)`; and they are `⌊NX * DY / DMASS⌋`
and `⌊NY * DY / DMASS⌋` whenever the quotient `DY / DMASS`, the count and
their product are exactly representable in single precision, the quotient is
below `2 ^ 128` and the product below `2 ^ 31`. -/
theorem fine_grid_dimensions (env : Collaborators) (Input : LISTPTR) (st sf : State) (d : ℚ)
    (hNX : 0 ≤ st.Map.NX) (hNY : 0 ≤ st.Map.NY) (hDY : 0 ≤ st.Map.DY)
    (hd : env.CopyFloat (VarStr env Input mass_spacing) = some d) (hpos : 0 < d)
    (h : InitParameters env Input st = Outcome.ok sf) :
    sf.Map.NumCellsfine = 0 ∧
    (FineDimDefined st.Map.NX st.Map.DY d →
      sf.Map.NXfine = ⌊floatProduct st.Map.NX st.Map.DY d⌋) ∧
    (FineDimDefined st.Map.NY st.Map.DY d →
      sf.Map.NYfine = ⌊floatProduct st.Map.NY st.Map.DY d⌋) ∧
    (roundFloat (st.Map.DY / d) = st.Map.DY / d → st.Map.DY / d < 2 ^ 128 →
      (roundFloat (st.Map.NX : ℚ) = st.Map.NX →
        roundFloat ((st.Map.NX : ℚ) * (st.Map.DY / d)) = (st.Map.NX : ℚ) * (st.Map.DY / d) →
        (st.Map.NX : ℚ) * st.Map.DY / d < 2147483648 →
        sf.Map.NXfine = ⌊(st.Map.NX : ℚ) * st.Map.DY / d⌋) ∧
      (roundFloat (st.Map.NY : ℚ) = st.Map.NY →
        roundFloat ((st.Map.NY : ℚ) * (st.Map.DY / d)) = (st.Map.NY : ℚ) * (st.Map.DY / d) →
        (st.Map.NY : ℚ) * st.Map.DY / d < 2147483648 →
        sf.Map.NYfine = ⌊(st.Map.NY : ℚ) * st.Map.DY / d⌋)) := by
  obtain ⟨hx, hy, hn, _⟩ := InitParameters_ok_fineDim hd h
  refine ⟨hn, ?_, ?_, ?_⟩
  · intro hdef
    rw [hx, fineDim_of_defined env hNX hDY hpos hdef]
  · intro hdef
    rw [hy, fineDim_of_defined env hNY hDY hpos hdef]
  · intro e2 hq
    constructor
    · intro e1 e3 hp
      rw [hx, fineDim_exact env hNX hDY hpos e1 e2 e3 hq hp]
    · intro e1 e3 hp
      rw [hy, fineDim_exact env hNY hDY hpos e1 e2 e3 hq hp]

/-- An instance: the 3×3 grid of edge 30 with spacing 10, where every step is
exact and both fine dimensions are 9. -/
theorem fine_grid_dimensions_witness :
    ∃ sf, InitParameters sampleEnv (scenario1Input "10") scenario4State = Outcome.ok sf ∧
      sf.Map.NumCellsfine = 0 ∧
      sf.Map.NXfine = ⌊(scenario4State.Map.NX : ℚ) * scenario4State.Map.DY / 10⌋ ∧
      sf.Map.NYfine = ⌊(scenario4State.Map.NY : ℚ) * scenario4State.Map.DY / 10⌋ ∧
      ⌊(scenario4State.Map.NX : ℚ) * scenario4State.Map.DY / 10⌋ = 9 :=
  have hq : roundFloat (scenario4State.Map.DY / 10) = scenario4State.Map.DY / 10 := by
    have e : scenario4State.Map.DY / 10 = 3 := by norm_num [scenario4State]
    rw [e, roundFloat_3]
  have hq2 : scenario4State.Map.DY / 10 < 2 ^ 128 := by norm_num [scenario4State]
  have hN : roundFloat ((3 : Int) : ℚ) = ((3 : Int) : ℚ) := by
    have e : ((3 : Int) : ℚ) = 3 := by norm_num
    rw [e, roundFloat_3]
  have hP : roundFloat (((3 : Int) : ℚ) * (scenario4State.Map.DY / 10)) =
      ((3 : Int) : ℚ) * (scenario4State.Map.DY / 10) := by
    have e : ((3 : Int) : ℚ) * (scenario4State.Map.DY / 10) = 9 := by
      norm_num [scenario4State]
    rw [e, roundFloat_9]
  have hB : ((3 : Int) : ℚ) * scenario4State.Map.DY / 10 < 2147483648 := by
    norm_num [scenario4State]
  (scenario1_completes_10 scenario4State).elim fun sf h =>
    have key := fine_grid_dimensions sampleEnv (scenario1Input "10") scenario4State sf 10
      (by decide) (by decide) (by norm_num [scenario4State]) sampleCopyFloat_10
      (by norm_num) h
    ⟨sf, h, key.1, (key.2.2.2 hq hq2).1 hN hP hB, (key.2.2.2 hq hq2).2 hN hP hB, by
      rw [Int.floor_eq_iff]; norm_num [scenario4State]⟩

/-- The exact formula fails: on the 7×7 grid of edge 31 with spacing 7 the
single precision quotient 31 / 7 lies below the exact one, the product lies
below 31, and both fine dimensions are 30, while `⌊7 * 31 / 7⌋ = 31`. -/
theorem fine_grid_below_exact_floor :
    ∃ sf, InitParameters sampleEnv (scenario1Input "7") roundingState = Outcome.ok sf ∧
      sf.Map.DMASS = 7 ∧ sf.Map.NXfine = 30 ∧ sf.Map.NYfine = 30 ∧
      ⌊(roundingState.Map.NX : ℚ) * roundingState.Map.DY / 7⌋ = 31 ∧
      ⌊(roundingState.Map.NY : ℚ) * roundingState.Map.DY / 7⌋ = 31 := by
  obtain ⟨sf, h⟩ := scenario1_completes_7 roundingState
  obtain ⟨hx, hy, _, hd⟩ := InitParameters_ok_fineDim sampleCopyFloat_7 h
  have e := (fineDim_7_31_7 sampleEnv).2
  refine ⟨sf, h, hd, hx.trans e, hy.trans e, ?_, ?_⟩
  · rw [Int.floor_eq_iff]; norm_num [roundingState]
  · rw [Int.floor_eq_iff]; norm_num [roundingState]

/-- Claim C8, as amended. For a coarse grid with `NX ≥ 0`, `NY ≥ 0`, `DY ≥ 0`
and two parsed spacings `0 < DMASS1 < DMASS2` such that, for `DMASS1`, the
stores of lines 154-155 are defined (the single precision quotient
`DY / DMASS1` is finite and the products `NX * (DY / DMASS1)` and
`NY * (DY / DMASS1)` fit in 32 bits), the fine dimensions of the two completed
runs satisfy `NXfine (DMASS1) ≥ NXfine (DMASS2)` and
`NYfine (DMASS1) ≥ NYfine (DMASS2)`: they do not decrease as `DMASS`
decreases. -/
theorem fine_grid_monotone_in_spacing (env : Collaborators) (Input1 Input2 : LISTPTR)
    (st sf1 sf2 : State) (d1 d2 : ℚ)
    (hNX : 0 ≤ st.Map.NX) (hNY : 0 ≤ st.Map.NY) (hDY : 0 ≤ st.Map.DY)
    (hd1 : env.CopyFloat (VarStr env Input1 mass_spacing) = some d1)
    (hd2 : env.CopyFloat (VarStr env Input2 mass_spacing) = some d2)
    (hpos : 0 < d1) (hlt : d1 < d2)
    (hdefX : FineDimDefined st.Map.NX st.Map.DY d1)
    (hdefY : FineDimDefined st.Map.NY st.Map.DY d1)
    (h1 : InitParameters env Input1 st = Outcome.ok sf1)
    (h2 : InitParameters env Input2 st = Outcome.ok sf2) :
    sf2.Map.NXfine ≤ sf1.Map.NXfine ∧ sf2.Map.NYfine ≤ sf1.Map.NYfine := by
  obtain ⟨hx1, hy1, _, _⟩ := InitParameters_ok_fineDim hd1 h1
  obtain ⟨hx2, hy2, _, _⟩ := InitParameters_ok_fineDim hd2 h2
  rw [hx1, hy1, hx2, hy2]
  exact ⟨(fineDim_antitone env hNX hDY hpos hlt hdefX).2,
    (fineDim_antitone env hNY hDY hpos hlt hdefY).2⟩

/-- An instance of the monotone form: the 3×3 grid of edge 30 with the
spacings 40 and 45. -/
theorem fine_grid_monotone_in_spacing_witness :
    ∃ sf1 sf2,
      InitParameters sampleEnv (scenario1Input "40") scenario4State = Outcome.ok sf1 ∧
      InitParameters sampleEnv (scenario1Input "45") scenario4State = Outcome.ok sf2 ∧
      FineDimDefined scenario4State.Map.NX scenario4State.Map.DY 40 ∧
      sf2.Map.NXfine ≤ sf1.Map.NXfine ∧ sf2.Map.NYfine ≤ sf1.Map.NYfine :=
  (scenario1_completes_40 scenario4State).elim fun sf1 h1 =>
    (scenario1_completes_45 scenario4State).elim fun sf2 h2 =>
      ⟨sf1, sf2, h1, h2, (fineDim_3_30_40 sampleEnv).1,
        fine_grid_monotone_in_spacing sampleEnv (scenario1Input "40") (scenario1Input "45")
          scenario4State sf1 sf2 40 45 (by decide) (by decide) (by norm_num [scenario4State])
          sampleCopyFloat_40 sampleCopyFloat_45 (by norm_num) (by norm_num)
          (fineDim_3_30_40 sampleEnv).1 (fineDim_3_30_40 sampleEnv).1 h1 h2⟩

/-- The strict form fails: on the 3×3 grid of edge 30 the spacings 40 < 45
give the same fine dimensions, `NXfine = NYfine = 2` in both runs (the single
precision products are 2.25 and 2), so the fine dimensions do not strictly
increase as `DMASS` decreases. -/
theorem fine_grid_equal_for_two_spacings :
    ∃ sf1 sf2,
      InitParameters sampleEnv (scenario1Input "40") scenario4State = Outcome.ok sf1 ∧
      InitParameters sampleEnv (scenario1Input "45") scenario4State = Outcome.ok sf2 ∧
      sf1.Map.DMASS = 40 ∧ sf2.Map.DMASS = 45 ∧
      sf1.Map.NXfine = 2 ∧ sf2.Map.NXfine = 2 ∧ sf1.Map.NYfine = 2 ∧ sf2.Map.NYfine = 2 := by
  obtain ⟨sf1, h1⟩ := scenario1_completes_40 scenario4State
  obtain ⟨sf2, h2⟩ := scenario1_completes_45 scenario4State
  obtain ⟨hx1, hy1, _, hd1⟩ := InitParameters_ok_fineDim sampleCopyFloat_40 h1
  obtain ⟨hx2, hy2, _, hd2⟩ := InitParameters_ok_fineDim sampleCopyFloat_45 h2
  have e40 := (fineDim_3_30_40 sampleEnv).2
  have e45 := (fineDim_3_30_45 sampleEnv).2
  exact ⟨sf1, sf2, h1, h2, hd1, hd2, hx1.trans e40, hx2.trans e45, hy1.trans e40,
    hy2.trans e45⟩

/-! ## End-to-end runs -/

/-- Claim C9. When the four switches begin with "FALSE" and the six numeric
parameters parse, `InitParameters` completes with `MassWaste`, `SurfaceErosion`
(and its twin `ErosionPeriod`), `RoadRouting`, `ChannelRouting` and
`InitSedFlag` all false, the road network of entry (no buffer is allocated) and
the schedule of entry (`InitSurfaceSed` does not run). -/
theorem InitParameters_all_off (env : Collaborators) (Input : LISTPTR) (st : State)
    (h0 : BeginsWith (VarStr env Input mass_wasting) "FALSE")
    (h1 : BeginsWith (VarStr env Input surface_erosion) "FALSE")
    (h2 : BeginsWith (VarStr env Input road_erosion) "FALSE")
    (h3 : BeginsWith (VarStr env Input channel_routing) "FALSE")
    (hp : NumericParametersParse env Input) :
    ∃ sf, InitParameters env Input st = Outcome.ok sf ∧
      sf.Options.MassWaste = false ∧ sf.Options.SurfaceErosion = false ∧
      sf.Options.ErosionPeriod = false ∧ sf.Options.RoadRouting = false ∧
      sf.Options.ChannelRouting = false ∧ sf.Options.InitSedFlag = false ∧
      sf.Network = st.Network ∧ sf.Time = st.Time := by
  obtain ⟨d, hd⟩ := Option.isSome_iff_exists.1 hp.1
  obtain ⟨q1, e1⟩ := Option.isSome_iff_exists.1 hp.2.1
  obtain ⟨q2, e2⟩ := Option.isSome_iff_exists.1 hp.2.2.1
  obtain ⟨q3, e3⟩ := Option.isSome_iff_exists.1 hp.2.2.2.1
  obtain ⟨q4, e4⟩ := Option.isSome_iff_exists.1 hp.2.2.2.2.1
  obtain ⟨q5, e5⟩ := Option.isSome_iff_exists.1 hp.2.2.2.2.2
  simp only [InitParameters, resolveMassWaste_FALSE _ h0, andThen_ok,
    resolveSurfaceErosion_FALSE _ h1, resolveRoadErosion_FALSE _ h2, RoadCellAllocator,
    Bool.false_eq_true, if_false, resolveChannelRouting_FALSE _ h3,
    deriveFineGrid_of_parse _ hd, readConstants, e1, e2, e3, e4, e5, distributeDiams,
    surfaceSedStage]
  exact ⟨_, rfl, rfl, rfl, rfl, rfl, rfl, rfl, rfl, rfl⟩

/-- Scenario 1 as an instance, from a state in which
`RoadRouting` was set on entry. -/
theorem InitParameters_all_off_witness :
    ∃ sf, InitParameters sampleEnv (scenario1Input "40") scenario4State = Outcome.ok sf ∧
      sf.Options.MassWaste = false ∧ sf.Options.SurfaceErosion = false ∧
      sf.Options.ErosionPeriod = false ∧ sf.Options.RoadRouting = false ∧
      sf.Options.ChannelRouting = false ∧ sf.Options.InitSedFlag = false ∧
      sf.Network = scenario4State.Network ∧ sf.Time = scenario4State.Time :=
  InitParameters_all_off sampleEnv (scenario1Input "40") scenario4State
    (by decide) (by decide) (by decide) (by decide) (by decide)

/-- Claim C10. After a completed `InitParameters`, `ErosionPeriod`,
`SurfaceErosion` and `InitSedFlag` are equal, and they are true exactly when
the SURFACE EROSION value begins with "TRUE". -/
theorem InitParameters_surface_flags (env : Collaborators) (Input : LISTPTR) (st sf : State)
    (h : InitParameters env Input st = Outcome.ok sf) :
    sf.Options.ErosionPeriod = sf.Options.SurfaceErosion ∧
    sf.Options.SurfaceErosion = sf.Options.InitSedFlag ∧
    (sf.Options.SurfaceErosion = true ↔
      BeginsWith (VarStr env Input surface_erosion) "TRUE") := by
  obtain ⟨s1, s5, s8, _, ⟨s2, e2, hS, hE⟩, _, _, _, e9, hS9, hE9⟩ := InitParameters_ok_fields h
  obtain ⟨hflag, _, _⟩ := surfaceSedStage_eq_ok e9
  rw [hE9, hS9, hflag, hE, hS]
  by_cases hT : BeginsWith (VarStr env Input surface_erosion) "TRUE"
  · rw [resolveSurfaceErosion_TRUE s1 hT] at e2
    injection e2 with e2
    subst e2
    exact ⟨rfl, rfl, by simp [hT]⟩
  · by_cases hF : BeginsWith (VarStr env Input surface_erosion) "FALSE"
    · rw [resolveSurfaceErosion_FALSE s1 hF] at e2
      injection e2 with e2
      subst e2
      exact ⟨rfl, rfl, by simp [hT]⟩
    · rw [resolveSurfaceErosion_other s1 (fun hv => hv.elim hT hF)] at e2
      cases e2

/-- Claim C6. When TIME STEPS parses to `N ≥ 0`, every allocation is satisfied
and for each `i < N` the values of the keys "EROSION START i+1" and
"EROSION END i+1" parse to `starts i` and `ends i` with the start not after the
end (the check of line 246 passes, as it does for a start before its end), the
schedule parse `InitSurfaceSed` completes with `NSETotalSteps = N` and with
`StartSed` and `EndSed` of length `N` holding `starts i` and `ends i` at
index `i`. When moreover SURFACE EROSION begins with "TRUE", the other three
switches resolve and the six numeric parameters parse, `InitParameters`
completes with that schedule and with `InitSedFlag` true. -/
theorem InitParameters_schedule (env : Collaborators) (Input : LISTPTR) (st : State)
    (N : Int) (starts ends : Nat → DATE)
    (hmem : ∀ n, env.calloc n = true)
    (hN : env.CopyInt (timeStepsVarStr env Input) = some N) (h0 : 0 ≤ N)
    (hper : ∀ i : Nat, (i : Int) < N →
      env.SScanDate (periodVarStr env Input 0 i) = some (starts i) ∧
      env.SScanDate (periodVarStr env Input 1 i) = some (ends i) ∧
      env.After (starts i) (ends i) = false) :
    ∃ T, InitSurfaceSed env Input st.Time = Outcome.ok T ∧
      T.NSETotalSteps = N ∧
      (∃ S E, T.StartSed = some S ∧ T.EndSed = some E ∧
        S.length = N.toNat ∧ E.length = N.toNat ∧
        ∀ i : Nat, (i : Int) < N → S[i]? = some (starts i) ∧ E[i]? = some (ends i)) ∧
      (ValidSwitch (VarStr env Input mass_wasting) →
        BeginsWith (VarStr env Input surface_erosion) "TRUE" →
        ValidSwitch (VarStr env Input road_erosion) →
        ValidSwitch (VarStr env Input channel_routing) →
        NumericParametersParse env Input →
        ∃ sf, InitParameters env Input st = Outcome.ok sf ∧ sf.Time = T ∧
          sf.Options.InitSedFlag = true) := by
  obtain ⟨T, hTime⟩ : ∃ T, InitSurfaceSed env Input st.Time = Outcome.ok T := by
    rw [InitSurfaceSed_eq_sedLoop st.Time hN h0 (hmem _)]
    apply sedLoop_ok_of
    intro j _ hj
    exact ⟨starts j, ends j, hper j (by omega)⟩
  obtain ⟨hN1, _, S, E, hSS, hEE, hlS, hlE, hall⟩ := InitSurfaceSed_ok_schedule hTime
  have hNeq : T.NSETotalSteps = N := by
    rw [hN] at hN1
    injection hN1 with hN1
    exact hN1.symm
  rw [hNeq] at hlS hlE hall
  refine ⟨T, hTime, hNeq, ⟨S, E, hSS, hEE, hlS, hlE, ?_⟩, ?_⟩
  · intro i hi
    obtain ⟨s, e, a1, a2, a3, a4, _⟩ := hall i (by omega)
    obtain ⟨b1, b2, _⟩ := hper i hi
    rw [b1] at a3
    rw [b2] at a4
    injection a3 with a3
    injection a4 with a4
    rw [a1, a2, a3, a4]
    exact ⟨rfl, rfl⟩
  · intro v0 hT v2 v3 hp
    obtain ⟨sf, h⟩ := InitParameters_completes st v0 (Or.inl hT) v2 v3 (hmem _) hp
      (fun _ => ⟨T, hTime⟩)
    obtain ⟨s1, s5, s8, _, ⟨s2, e2, hS, _⟩, _, _, hT8, e9, _, _⟩ := InitParameters_ok_fields h
    obtain ⟨hflag, hrun, _⟩ := surfaceSedStage_eq_ok e9
    have hS8 : s8.Options.SurfaceErosion = true := by
      rw [hS]
      rw [resolveSurfaceErosion_TRUE s1 hT] at e2
      injection e2 with e2
      subst e2
      rfl
    have hrun1 := hrun hS8
    rw [hT8, hTime] at hrun1
    injection hrun1 with hrun1
    exact ⟨sf, h, hrun1.symm, by rw [hflag, hS8]⟩

theorem scenario2_completes (st : State) (hT : st.Time = emptyTime) :
    ∃ sf, InitParameters sampleEnv scenario2Input st = Outcome.ok sf :=
  InitParameters_completes st (by decide) (by decide) (by decide) (by decide) rfl (by decide)
    (fun _ => ⟨scenario2Schedule, by rw [hT]; rfl⟩)

/-- Scenario 2 as an instance: SURFACE EROSION is "TRUE", the run completes and
the three flags are equal and true. -/
theorem InitParameters_surface_flags_witness :
    ∃ sf, InitParameters sampleEnv scenario2Input scenario4State = Outcome.ok sf ∧
      sf.Options.ErosionPeriod = sf.Options.SurfaceErosion ∧
      sf.Options.SurfaceErosion = sf.Options.InitSedFlag ∧
      (sf.Options.SurfaceErosion = true ↔
        BeginsWith (VarStr sampleEnv scenario2Input surface_erosion) "TRUE") :=
  (scenario2_completes scenario4State rfl).elim fun sf h =>
    ⟨sf, h, InitParameters_surface_flags sampleEnv scenario2Input scenario4State sf h⟩

/-- Scenario 2 as an instance: two periods, Jan 1 - Jan 10 2000 and Feb 1 -
Feb 15 2000, read under the keys "EROSION START 1" ... "EROSION END 2". -/
theorem InitParameters_schedule_witness :
    (KeyName 0 0 = "EROSION START 1" ∧ KeyName 1 1 = "EROSION END 2") ∧
    ∃ T, InitSurfaceSed sampleEnv scenario2Input scenario4State.Time = Outcome.ok T ∧
      T.NSETotalSteps = 2 ∧
      (∃ S E, T.StartSed = some S ∧ T.EndSed = some E ∧ S.length = 2 ∧ E.length = 2 ∧
        ∀ i : Nat, (i : Int) < 2 →
          S[i]? = some (scenario2Starts i) ∧ E[i]? = some (scenario2Ends i)) ∧
      ∃ sf, InitParameters sampleEnv scenario2Input scenario4State = Outcome.ok sf ∧
        sf.Time = T ∧ sf.Options.InitSedFlag = true :=
  ⟨⟨by decide, by decide⟩,
   (InitParameters_schedule sampleEnv scenario2Input scenario4State 2 scenario2Starts
    scenario2Ends (fun _ => rfl) rfl (by decide)
    (fun i hi =>
      have h2 : i = 0 ∨ i = 1 := by omega
      h2.elim (fun h => by subst h; exact ⟨rfl, rfl, rfl⟩)
        (fun h => by subst h; exact ⟨rfl, rfl, rfl⟩))).elim fun T hT =>
    ⟨T, hT.1, hT.2.1, hT.2.2.1,
      hT.2.2.2 (by decide) (by decide) (by decide) (by decide) (by decide)⟩⟩

end DHSVM
